import Mathlib

/-!
Verification of `src/rust/fincore.rs` (fixed-income amortization engine).

Shallow embedding conventions:
* `rust_decimal::Decimal` is embedded as `ℚ`.  `Decimal` keeps 28-29
  significant digits and rounds long divisions; the claims below only involve
  short computations whose intermediate values are exactly representable, so
  the exact-rational embedding agrees with the source there.
* `Decimal::round_dp` uses the crate's default strategy, midpoint-nearest-even
  (banker's rounding); `roundEven`/`roundDp` below implement that on `ℚ`.
* `chrono::NaiveDate` is embedded as `Int`: the number of days since
  1970-01-01, computed for concrete dates by `civil` (the standard
  days-from-civil algorithm).  Date subtraction (`num_days`) is integer
  subtraction, date comparison is integer comparison.
* Rust panics are modelled explicitly: a function that can panic returns
  `Option` (with `none` for the panic), or the panic case is mapped to a
  documented sentinel value when no claim depends on it.
* `calculate_interest_factor` and `Decimal::is_close_to` are called by the
  source but defined nowhere under `src/` (rust_decimal has no such methods);
  they are modelled from the spec, see `cifSpec` and `is_close_to`.
-/

/- Source constants (fincore.rs lines 20-22). -/

def ZERO : ℚ := 0

def ONE : ℚ := 1

def CENTI : ℚ := 0.01

/- Banker's rounding to an integer: round-half-to-even, the default
`RoundingStrategy::MidpointNearestEven` of `rust_decimal`. -/

def roundEven (x : ℚ) : Int :=
  let f := ⌊x⌋
  let frac := x - f
  if frac < 1/2 then f
  else if frac > 1/2 then f + 1
  else if Even f then f else f + 1

/- `Decimal::round_dp(places)`. -/

def roundDp (places : Nat) (x : ℚ) : ℚ :=
  (roundEven (x * 10 ^ places) : ℚ) / 10 ^ places

/- Modelled from the spec: the source calls `Decimal::is_close_to(other, tol)`
but neither fincore.rs nor rust_decimal defines it.  The spec reads
"`Σ ratio != 1` (within 1e-9)", i.e. closeness is |a - b| ≤ tol. -/

def is_close_to (a b tol : ℚ) : Bool :=
  decide (|a - b| ≤ tol)

/- Day number of a civil date (days since 1970-01-01); the standard
days-from-civil algorithm, matching chrono's proleptic Gregorian calendar. -/

def civil (y m d : Int) : Int :=
  let y2 := if m ≤ 2 then y - 1 else y
  let era := Int.fdiv y2 400
  let yoe := y2 - era * 400
  let mp := if m > 2 then m - 3 else m + 9
  let doy := (153 * mp + 2) / 5 + d - 1
  let doe := yoe * 365 + yoe / 4 - yoe / 100 + doy
  era * 146097 + doe - 719468

/- Civil date (year, month, day) of a day number; inverse of `civil`. -/

def civilOfDays (z0 : Int) : Int × Int × Int :=
  let z := z0 + 719468
  let era := Int.fdiv z 146097
  let doe := z - era * 146097
  let yoe := (doe - doe / 1460 + doe / 36524 - doe / 146096) / 365
  let y := yoe + era * 400
  let doy := doe - (365 * yoe + yoe / 4 - yoe / 100)
  let mp := (5 * doy + 2) / 153
  let d := doy - (153 * mp + 2) / 5 + 1
  let m := mp + (if mp < 10 then 3 else -9)
  (if m ≤ 2 then y + 1 else y, m, d)

/- `NaiveDate::day0()`: zero-based day of month. -/

def day0_of (z : Int) : Int :=
  (civilOfDays z).2.2 - 1

/- `Datelike::days_in_month()`. -/

def days_in_month (z : Int) : Int :=
  let ymd := civilOfDays z
  civil ymd.1 (ymd.2.1 + 1) 1 - civil ymd.1 ymd.2.1 1

/- chrono `NaiveDate` representable range (years -262144 to 262143); only
used to bound date differences in the revenue-tax claims. -/

def naive_date_min : Int := civil (-262144) 1 1

def naive_date_max : Int := civil 262143 12 31

def in_chrono_range (d : Int) : Prop :=
  naive_date_min ≤ d ∧ d ≤ naive_date_max

instance (d : Int) : Decidable (in_chrono_range d) := by
  unfold in_chrono_range; infer_instance

/- fincore.rs lines 137-145.  `std::iter::successors` yields `start_date`
first and keeps adding one day while the previous date is `< end_date`; the
produced list is therefore the closed range `[start_date, end_date]` when
`start_date ≤ end_date`, and `[start_date]` otherwise. -/

def date_range (start_date end_date : Int) : List Int :=
  start_date :: (if start_date < end_date then date_range (start_date + 1) end_date else [])
termination_by (end_date - start_date).toNat
decreasing_by simp_wf; omega

/- fincore.rs lines 151-168.  Both branches compute a 31-day distance between
the two anchor-day boundaries straddling `base`; the source panics for a
`base` before 0001-02-01 whose day-of-month is below `day_of_month`
(unreachable for the modern dates the engine handles) - that case is mapped
to the sentinel 0 here. -/

def diff_surrounding_dates (base : Int) (day_of_month : Int) : Int :=
  if day_of_month ≤ day0_of base ∨ civil 1 2 1 ≤ base then
    let d01 := base - day0_of base + day_of_month
    let d02 := if day_of_month ≤ day0_of base then d01 + 31 else d01 - 31
    if day_of_month ≤ day0_of base then d02 - d01 else d01 - d02
  else 0

/- fincore.rs lines 24-29. -/

def REVENUE_TAX_BRACKETS : List (Int × Int × ℚ) :=
  [(0, 180, 0.225), (180, 360, 0.2), (360, 720, 0.175), (720, 2147483647, 0.15)]

/- The bracket scan of fincore.rs lines 778-782. -/

def find_bracket (diff : Int) : List (Int × Int × ℚ) → Option ℚ
  | [] => none
  | (minimum, maximum, rate) :: rest =>
    if minimum < diff ∧ diff ≤ maximum then some rate else find_bracket diff rest

/- fincore.rs lines 771-785.  `none` models the two panics: "end date should
be greater than the begin date" when `end ≤ begin`, and the trailing
"No matching tax bracket found" when no bracket matches. -/

def calculate_revenue_tax (begin_d end_d : Int) : Option ℚ :=
  if end_d ≤ begin_d then none
  else find_bracket (end_d - begin_d) REVENUE_TAX_BRACKETS

/- fincore.rs lines 174-178. -/

structure DailyIndex where
  date : Int
  value : ℚ
deriving DecidableEq

/- fincore.rs line 172. -/

inductive BackendError
  | mk
deriving DecidableEq

/- The `_ignore_cdi` list built at fincore.rs lines 227-283. -/

def ignore_cdi : List Int :=
  [civil 2018 1 1, civil 2018 2 12, civil 2018 2 13, civil 2018 3 30,
   civil 2018 5 1, civil 2018 5 31, civil 2018 9 7, civil 2018 10 12,
   civil 2018 11 2, civil 2018 11 15, civil 2018 12 25,
   civil 2019 1 1, civil 2019 3 4, civil 2019 3 5, civil 2019 4 19,
   civil 2019 5 1, civil 2019 6 20, civil 2019 11 15, civil 2019 12 25,
   civil 2020 1 1, civil 2020 2 24, civil 2020 2 25, civil 2020 4 10,
   civil 2020 4 21, civil 2020 5 1, civil 2020 6 11, civil 2020 9 7,
   civil 2020 10 12, civil 2020 11 2, civil 2020 12 25,
   civil 2021 1 1, civil 2021 2 15, civil 2021 2 16, civil 2021 4 2,
   civil 2021 4 21, civil 2021 6 3, civil 2021 9 7, civil 2021 10 12,
   civil 2021 11 2, civil 2021 11 15,
   civil 2022 2 28, civil 2022 3 1, civil 2022 4 15, civil 2022 4 21,
   civil 2022 6 16, civil 2022 9 7, civil 2022 10 12, civil 2022 11 2,
   civil 2022 11 15,
   civil 2023 2 20, civil 2023 2 21, civil 2023 4 7, civil 2023 4 21,
   civil 2023 5 1, civil 2023 6 8]

/- The `_registry_cdi` map of fincore.rs lines 285-311.  The source writes a
vector of (range-begin, range-end, value) triples into a
`HashMap<NaiveDate, Decimal>` (a type error as written); the lookup code
(exact date, else latest earlier key) only uses the first date of each
triple as the key, so the unused range-end dates are dropped here. -/

def registry_cdi : List (Int × ℚ) :=
  [(civil 2017 12 29, 0.026444), (civil 2018 2 8, 0.025515),
   (civil 2018 3 22, 0.024583), (civil 2018 10 1, 0.024620),
   (civil 2019 8 1, 0.022751), (civil 2019 9 19, 0.020872),
   (civil 2019 10 31, 0.018985), (civil 2019 12 12, 0.017089),
   (civil 2020 2 6, 0.016137), (civil 2020 3 19, 0.014227),
   (civil 2020 5 7, 0.011345), (civil 2020 6 18, 0.008442),
   (civil 2020 8 6, 0.007469), (civil 2021 3 18, 0.010379),
   (civil 2021 5 6, 0.013269), (civil 2021 6 17, 0.016137),
   (civil 2021 8 5, 0.019930), (civil 2021 9 23, 0.023687),
   (civil 2021 10 28, 0.029256), (civil 2021 12 9, 0.034749),
   (civil 2022 2 3, 0.040168), (civil 2022 3 17, 0.043739),
   (civil 2022 5 5, 0.047279), (civil 2022 6 17, 0.049037),
   (civil 2022 8 4, 0.050788)]

/- The fallback of fincore.rs lines 324-328: the value at the latest
registry key strictly before `date`, or `ZERO` when there is none. -/

def last_known_value (date : Int) : ℚ :=
  match (registry_cdi.filter (fun p => p.1 < date)).foldl
      (fun acc p =>
        match acc with
        | none => some p
        | some q => if q.1 < p.1 then some p else acc) none with
  | some p => p.2
  | none => ZERO

/- The per-date lookup inside `get_cdi_indexes` (fincore.rs lines 320-330). -/

def registry_value (date : Int) : ℚ :=
  match registry_cdi.lookup date with
  | some v => v
  | none => last_known_value date

/- `InMemoryBackend::get_cdi_indexes`, fincore.rs lines 316-334: one entry
per day of `date_range(begin, end)` that is not in the ignore list. -/

def get_cdi_indexes (begin_d end_d : Int) : Except BackendError (List DailyIndex) :=
  .ok ((date_range begin_d end_d).filterMap
    (fun date =>
      if ignore_cdi.contains date then none
      else some { date := date, value := registry_value date }))

/- `InMemoryBackend::calculate_cdi_factor`, fincore.rs lines 336-349 (the
ignore-list test inside the fold is redundant, the entries are already
filtered; it is kept for faithfulness). -/

def calculate_cdi_factor (begin_d end_d : Int) (percentage : Int) :
    Except BackendError (ℚ × Int) :=
  match get_cdi_indexes begin_d end_d with
  | .error e => .error e
  | .ok indexes =>
    .ok (indexes.foldl
      (fun acc index =>
        if ignore_cdi.contains index.date then acc
        else (acc.1 * (ONE + index.value * (percentage : ℚ) * CENTI), acc.2 + 1))
      (ONE, 0))

/- The `.unwrap()` adapter used where the engine calls the backend
(fincore.rs line 481); `get_cdi_indexes` never returns an error, so the
error arm is unreachable. -/

def imb_cdi_factor (begin_d end_d : Int) (percentage : Int) : ℚ × Int :=
  match calculate_cdi_factor begin_d end_d percentage with
  | .ok r => r
  | .error _ => (ONE, 0)

/- fincore.rs lines 32-60: configuration enums (IPCA/IGPM attach through
price-level adjustment, absent from this port's `VrIndex`). -/

inductive OpModes
  | Bullet
  | JurosMensais
  | Price
  | Livre
deriving DecidableEq

inductive VrIndex
  | CDI
  | Poupanca
deriving DecidableEq

inductive Capitalisation
  | Days252
  | Days360
  | Days365
  | Days30360
deriving DecidableEq

inductive GainOutputMode
  | Current
  | Deferred
  | Settled
deriving DecidableEq

/- fincore.rs lines 64-69. -/

structure DctOverride where
  date_from : Int
  date_to : Int
  predates_first_amortization : Bool
deriving DecidableEq

/- fincore.rs lines 71-77.  `amortization_frac` is the source field
`amortization_ratio`. -/

structure Amortization where
  date : Int
  amortization_frac : ℚ
  amortizes_interest : Bool
  dct_override : Option DctOverride
deriving DecidableEq

instance : Inhabited Amortization :=
  ⟨{ date := 0, amortization_frac := 0, amortizes_interest := false, dct_override := none }⟩

/- fincore.rs lines 79-84. -/

structure AmortizationBare where
  date : Int
  value : ℚ
  dct_override : Option DctOverride
deriving DecidableEq

/- fincore.rs lines 90-100. -/

structure Payment where
  no : Int
  date : Int
  raw : ℚ
  tax : ℚ
  net : ℚ
  gain : ℚ
  amort : ℚ
  bal : ℚ
deriving DecidableEq

/- fincore.rs lines 102-111. -/

structure DailyReturn where
  no : Int
  period : Int
  date : Int
  value : ℚ
  bal : ℚ
  fixed_factor : ℚ
  variable_factor : ℚ
deriving DecidableEq

/- fincore.rs lines 126-130. -/

structure CalcDate where
  value : Int
  runaway : Bool
deriving DecidableEq

/- fincore.rs lines 192-197.  The boxed `IndexStorageBackend` is replaced by
passing the backend's `calculate_cdi_factor` (for `get_payments_table`) or
normalized `get_cdi_indexes` (for `get_daily_returns`) as an explicit
function argument to the engine; `imb_cdi_factor` above is the in-memory
reference implementation. -/

structure VariableIndex where
  code : VrIndex
  percentage : Int
deriving DecidableEq

/- The register file of fincore.rs lines 787-891, flattened.  Source names:
interest.current / .accrued / .settled.current / .settled.total / .deferred,
principal.amortization_ratio.current / .regular,
principal.amortized.current / .total.  `interest_daily` is read by
`get_daily_returns` (line 758, `regs.interest.daily`) although the source
`InterestRegisters` struct declares no such field - that line cannot compile
as written; it is modelled as a field that is initialized to zero and never
written, which is how the rest of the source treats it. -/

structure Registers where
  interest_current : ℚ
  interest_accrued : ℚ
  interest_settled_current : ℚ
  interest_settled_total : ℚ
  interest_deferred : ℚ
  interest_daily : ℚ
  afrac_current : ℚ
  afrac_regular : ℚ
  amortized_current : ℚ
  amortized_total : ℚ
deriving DecidableEq

def Registers.new : Registers :=
  { interest_current := ZERO, interest_accrued := ZERO,
    interest_settled_current := ZERO, interest_settled_total := ZERO,
    interest_deferred := ZERO, interest_daily := ZERO,
    afrac_current := ZERO, afrac_regular := ZERO,
    amortized_current := ZERO, amortized_total := ZERO }

/- Modelled from the spec: `calculate_interest_factor` is called throughout
fincore.rs but defined nowhere under src/.  Per spec section 4.1 it computes
`(1 + r)^t`, dividing `r` by 100 first when it is given as a percentage.
A fractional power of a rational is generally irrational, hence not a value
of `ℚ`: this model is exact for integer exponents and for rate 0 (the only
cases the concrete theorems below evaluate), and returns the sentinel 0 for
a fractional exponent with a nonzero rate; the universally quantified
theorems below hold for every factor function and are stated over an
arbitrary `cif` argument instead. -/

def cifSpec (rate t : ℚ) (percent : Bool) : ℚ :=
  let r := if percent then rate / 100 else rate
  if r = 0 then 1
  else if t.den = 1 then (1 + r) ^ t.num
  else 0

/- The `calc_balance` helper of fincore.rs lines 381-389 (and its identical
copy at lines 617-625). -/

def calc_balance (principal f_c interest_accrued principal_amortized_total
    interest_settled_total : ℚ) : ℚ :=
  principal * f_c + interest_accrued - principal_amortized_total * f_c - interest_settled_total

/- The ratio-accumulation loop of fincore.rs lines 414-423: running sum with
an overflow check after each entry.  (`aux > 1 ∧ ¬ is_close_to aux 1 1e-9`
is the source's overflow test.) -/

def check_ratios : List Amortization → ℚ → Except String ℚ
  | [], aux => .ok aux
  | x :: xs, aux =>
    let a := aux + x.amortization_frac
    if a > ONE ∧ ¬ is_close_to a ONE 1e-9 then
      .error "the accumulated percentage of the amortizations overflows 1.0"
    else check_ratios xs a

/- True when the variable index is present with code CDI (fincore.rs lines
408-412). -/

def is_cdi (vir : Option VariableIndex) : Bool :=
  match vir with
  | some v => v.code == VrIndex.CDI
  | none => false

/- Phase B.0 of fincore.rs lines 444-488: the spread factor for one schedule
segment.  `f_c` stays 1 throughout `get_payments_table` (the source
initializes it to ONE and never reassigns it), so only `f_s` is returned. -/

def compute_f_s (cif : ℚ → ℚ → Bool → ℚ) (cdiF : Int → Int → Int → ℚ × Int)
    (apy : ℚ) (vir : Option VariableIndex) (cap : Capitalisation) (num : Nat)
    (ent0 ent1 : Amortization) (due : Int) : Except String ℚ :=
  match vir, cap with
  | none, Capitalisation.Days360 =>
    .ok (cif apy (((due - ent0.date : Int) : ℚ) / 360) false)
  | none, Capitalisation.Days365 =>
    .ok (cif apy (((due - ent0.date : Int) : ℚ) / 365) false)
  | none, Capitalisation.Days30360 =>
    let dcp : ℚ := ((due - ent0.date : Int) : ℚ)
    let dct0 : ℚ := ((ent1.date - ent0.date : Int) : ℚ)
    let dct1 : ℚ :=
      match ent1.dct_override with
      | some o =>
        if num = 0 then ((diff_surrounding_dates ent0.date 24 : Int) : ℚ)
        else if o.predates_first_amortization then
          ((diff_surrounding_dates o.date_from 24 : Int) : ℚ)
        else ((o.date_to - o.date_from : Int) : ℚ)
      | none => dct0
    let dct2 : ℚ :=
      match ent0.dct_override with
      | some o =>
        if o.predates_first_amortization then
          ((diff_surrounding_dates o.date_from 24 : Int) : ℚ)
        else ((ent1.date - o.date_from : Int) : ℚ)
      | none => dct1
    .ok (cif apy (dcp / (12 * dct2)) false)
  | some v, Capitalisation.Days252 =>
    if v.code = VrIndex.CDI then
      let f_v := cdiF ent0.date due v.percentage
      .ok (cif apy ((f_v.2 : ℚ) / 252) false * f_v.1)
    else .error "Unsupported combination of variable interest rate and capitalisation"
  | _, _ => .error "Unsupported combination of variable interest rate and capitalisation"

/- Phase B.1 of fincore.rs lines 491-535.  The schedule is a
`Vec<Amortization>`, so the first arm of the source's `match ent1` (the
regular-entry arm) matches every entry and the `AmortizationBare` arm is
unreachable; only the regular arm is modelled.  `(1-r)/(1-r_regular)` is
`Decimal` division, which panics when the denominator is zero; `ℚ` division
returns 0 there instead - the theorems below restrict to schedules that keep
the denominator nonzero. -/

def stepB1 (principal f_s f_c : ℚ) (ent1 : Amortization) (regs : Registers) : Registers :=
  let current := calc_balance principal f_c regs.interest_accrued regs.amortized_total
    regs.interest_settled_total * (f_s - ONE)
  let accrued := regs.interest_accrued + current
  let deferred := accrued - (current + regs.interest_settled_total)
  let adj := (ONE - regs.afrac_current) / (ONE - regs.afrac_regular)
  let amortization := ent1.amortization_frac * adj
  let afrac_current := regs.afrac_current + amortization
  let amortized_current := amortization * principal
  let amortized_total := afrac_current * principal
  let afrac_regular := regs.afrac_regular + ent1.amortization_frac
  if ent1.amortizes_interest then
    let sc := current + afrac_current * deferred
    { regs with
      interest_current := current, interest_accrued := accrued,
      interest_deferred := deferred,
      afrac_current := afrac_current, afrac_regular := afrac_regular,
      amortized_current := amortized_current, amortized_total := amortized_total,
      interest_settled_current := sc,
      interest_settled_total := regs.interest_settled_total + sc }
  else
    { regs with
      interest_current := current, interest_accrued := accrued,
      interest_deferred := deferred,
      afrac_current := afrac_current, afrac_regular := afrac_regular,
      amortized_current := amortized_current, amortized_total := amortized_total }

/- Phase B.2 of fincore.rs lines 538-585: payment assembly and rounding.
The source's second `amortizes_interest` arm (lines 566-568) repeats the
condition of the first and is unreachable.  The revenue-tax lookup panics
for `due ≤ sched_start`; `getD 0` is the sentinel for that unreachable
case. -/

def mkPayment (principal f_c : ℚ) (sched_start due : Int) (num : Nat)
    (ent1 : Amortization) (tax_exempt : Option Bool)
    (gain_output : GainOutputMode) (regs : Registers) : Payment :=
  let amort := regs.amortized_current
  let gain :=
    match gain_output with
    | GainOutputMode.Deferred => regs.interest_deferred + regs.interest_current
    | GainOutputMode.Settled =>
      if ent1.amortizes_interest then regs.interest_settled_current else ZERO
    | GainOutputMode.Current => regs.interest_current
  let bal := calc_balance principal f_c regs.interest_accrued regs.amortized_total
    regs.interest_settled_total
  let rt := (calculate_revenue_tax sched_start due).getD 0
  let raw_tax : ℚ × ℚ :=
    if ent1.amortizes_interest then
      (amort + regs.interest_settled_current, regs.interest_settled_current * rt)
    else if amort > ZERO then (amort, ZERO)
    else (ZERO, ZERO)
  let tax := if tax_exempt.getD false then ZERO else raw_tax.2
  { no := (num : Int) + 1, date := ent1.date,
    raw := roundDp 2 raw_tax.1, tax := roundDp 2 tax,
    net := roundDp 2 (roundDp 2 raw_tax.1 - roundDp 2 tax),
    gain := roundDp 2 gain, amort := roundDp 2 amort,
    bal := roundDp 2 bal }

/- The main loop of fincore.rs lines 439-594 over consecutive schedule pairs
(`amortizations.windows(2)`).  Each emitted payment is returned together
with the register file right after its phase B.1, so that pre-rounding
quantities are visible to the theorems; `get_payments_table` below projects
the payments out.  The loop breaks when a payment's rounded balance is 0. -/

def ptRun (cif : ℚ → ℚ → Bool → ℚ) (cdiF : Int → Int → Int → ℚ × Int)
    (principal apy : ℚ) (vir : Option VariableIndex) (cap : Capitalisation)
    (calcd : CalcDate) (sched_start : Int) (tax_exempt : Option Bool)
    (gain_output : GainOutputMode) :
    List (Amortization × Amortization) → Nat → Registers →
    Except String (List (Payment × Registers))
  | [], _, _ => .ok []
  | (ent0, ent1) :: rest, num, regs =>
    let due := min calcd.value ent1.date
    let f_c : ℚ := ONE
    let f_s_e : Except String ℚ :=
      if ent0.date < calcd.value ∨ ent1.date ≤ calcd.value then
        compute_f_s cif cdiF apy vir cap num ent0 ent1 due
      else .ok ONE
    match f_s_e with
    | .error e => .error e
    | .ok f_s =>
      if ent0.date < calcd.value ∨ ent1.date ≤ calcd.value ∨ calcd.runaway then
        let regs2 := stepB1 principal f_s f_c ent1 regs
        let p := mkPayment principal f_c sched_start due num ent1 tax_exempt gain_output regs2
        if p.bal = ZERO then .ok [(p, regs2)]
        else
          match ptRun cif cdiF principal apy vir cap calcd sched_start tax_exempt
              gain_output rest (num + 1) regs2 with
          | .error e => .error e
          | .ok l => .ok ((p, regs2) :: l)
      else ptRun cif cdiF principal apy vir cap calcd sched_start tax_exempt
        gain_output rest (num + 1) regs

/- `get_payments_table`, fincore.rs lines 367-597.  The `HashMap`/serde
keyword-argument glue of lines 368-378 is replaced by typed parameters; the
backend box inside `vir` by the explicit `cdiF` function. -/

def get_payments_table (cif : ℚ → ℚ → Bool → ℚ) (cdiF : Int → Int → Int → ℚ × Int)
    (principal apy : ℚ) (amortizations : List Amortization)
    (vir : Option VariableIndex) (capitalisation : Capitalisation)
    (calc_date : Option CalcDate) (tax_exempt : Option Bool)
    (gain_output : GainOutputMode) : Except String (List Payment) :=
  if principal = ZERO then .ok []
  else if principal < CENTI then
    .error "principal value should be at least 0.01"
  else if amortizations.length < 2 then
    .error "at least two amortizations are required: the start of the schedule, and its end"
  else if vir = none ∧ capitalisation = Capitalisation.Days252 then
    .error "fixed interest rates should not use the 252 working days capitalisation"
  else if is_cdi vir ∧ capitalisation ≠ Capitalisation.Days252 then
    .error "CDI should use the 252 working days capitalisation"
  else
    match check_ratios amortizations ZERO with
    | .error e => .error e
    | .ok aux =>
      if ¬ is_close_to aux ONE 1e-9 then
        .error "the accumulated percentage of the amortizations does not reach 1.0"
      else
        let calcd := calc_date.getD
          { value := (amortizations.getLastD default).date, runaway := false }
        match ptRun cif cdiF principal apy vir capitalisation calcd
            (amortizations.headD default).date tax_exempt gain_output
            (amortizations.zip amortizations.tail) 0 Registers.new with
        | .error e => .error e
        | .ok l => .ok (l.map Prod.fst)

/- Per-day loop state for `get_daily_returns` (fincore.rs lines 663-680):
register file, current period and row counters, the two-entry amortization
window with the not-yet-consumed tail of the schedule iterator, and the
remaining normalized CDI indexes. -/

structure DState where
  regs : Registers
  period : Int
  count : Int
  cur : Amortization
  next : Amortization
  rest : List Amortization
  idxs : List ℚ
deriving DecidableEq

/- The `while ref_date == next_amortization.date` event loop of fincore.rs
lines 719-745.  The schedule is a `Vec<Amortization>`, so only the
regular-entry arm of the source's match is reachable; that arm sends values
to `gens.principal_tracker_*` / `interest_tracker_2`, but those "generators"
are plain empty iterators (`std::iter::empty()`), which have no `send`
method and update nothing - the sends are modelled as no-ops.  After the
arm the source sets `current = next` and
`next = iter.next().unwrap_or(current)`: once the iterator is exhausted,
`next` keeps the same date and the `while` condition stays true forever, so
the loop never terminates; `none` models that divergence. -/

def processEventsAux (ref_date : Int) (idxs : List ℚ) :
    Registers → Int → Int → Amortization → Amortization → List Amortization →
    Option DState
  | regs, period, count, cur, next, rest =>
    if ref_date = next.date then
      let _adj := (ONE - regs.afrac_current) / (ONE - regs.afrac_regular)
      let regs2 := { regs with interest_current := ZERO }
      match rest with
      | r :: rs => processEventsAux ref_date idxs regs2 (period + 1) 1 next r rs
      | [] => none
    else
      some { regs := regs, period := period, count := count, cur := cur,
             next := next, rest := rest, idxs := idxs }

def processEvents (ref_date : Int) (s : DState) : Option DState :=
  processEventsAux ref_date s.idxs s.regs s.period s.count s.cur s.next s.rest

/- The daily factor selection of fincore.rs lines 687-716.  Returns
`(f_s, f_v, remaining indexes)`; `none` models the `idxs.next().unwrap()`
panic when the index iterator is exhausted, and the `Err` arms are the
source's unsupported-combination returns. -/

def daily_factors (cif : ℚ → ℚ → Bool → ℚ) (apy : ℚ)
    (vir : Option VariableIndex) (cap : Capitalisation) (a0 a1 : Amortization)
    (s : DState) (ref_date : Int) : Option (Except String (ℚ × ℚ × List ℚ)) :=
  match vir, cap with
  | none, Capitalisation.Days360 =>
    some (.ok (cif apy (ONE / 360) false, ONE, s.idxs))
  | none, Capitalisation.Days365 =>
    some (.ok (cif apy (ONE / 365) false, ONE, s.idxs))
  | none, Capitalisation.Days30360 =>
    let v01 := cif apy (ONE / 12) false - ONE
    let v02 : ℚ :=
      if s.period = 1 ∧ ref_date < s.next.date then ((a1.date - a0.date : Int) : ℚ)
      else if ref_date = s.next.date then ((days_in_month s.next.date : Int) : ℚ)
      else ((days_in_month s.cur.date : Int) : ℚ)
    some (.ok (cif v01 (ONE / v02) false, ONE, s.idxs))
  | some v, Capitalisation.Days252 =>
    if v.code = VrIndex.CDI then
      match s.idxs with
      | [] => none
      | i :: rest2 =>
        let f_v := i * (v.percentage : ℚ) / 100 + ONE
        let f_s := if f_v > ONE then cif apy (ONE / 252) false else ONE
        some (.ok (f_s, f_v, rest2))
    else some (.error "Unsupported combination of variable interest rate and capitalisation")
  | some v, Capitalisation.Days360 =>
    if v.code = VrIndex.Poupanca then
      match s.idxs with
      | [] => none
      | i :: rest2 =>
        some (.ok (cif apy (ONE / 360) false, i * (v.percentage : ℚ) / 100 + ONE, rest2))
    else some (.error "Unsupported combination of variable interest rate and capitalisation")
  | _, _ =>
    some (.error "Unsupported combination of variable interest rate and capitalisation")

/- The per-day loop of fincore.rs lines 681-766.  The
`gens.interest_tracker_1.send(...)` accrual (line 747) is a no-op on a dead
generator (see `processEvents`), so the registers feeding `calc_balance`
never change; the zero-balance check (line 750) runs before the row is
built and pushed.  `none` propagates the two non-returning cases. -/

def dayLoop (cif : ℚ → ℚ → Bool → ℚ) (principal apy : ℚ)
    (vir : Option VariableIndex) (cap : Capitalisation) (a0 a1 : Amortization) :
    List Int → DState → Option (Except String (List DailyReturn))
  | [], _ => some (.ok [])
  | ref_date :: ds, s =>
    let f_c : ℚ := ONE
    match daily_factors cif apy vir cap a0 a1 s ref_date with
    | none => none
    | some (.error e) => some (.error e)
    | some (.ok (f_s, f_v, idxs2)) =>
      match processEvents ref_date { s with idxs := idxs2 } with
      | none => none
      | some s2 =>
        if roundDp 2 (calc_balance principal f_c s2.regs.interest_accrued
            s2.regs.amortized_total s2.regs.interest_settled_total) = ZERO then
          some (.ok [])
        else
          let row : DailyReturn :=
            { no := s2.count, period := s2.period, date := ref_date,
              value := roundDp 2 s2.regs.interest_daily,
              bal := roundDp 2 (calc_balance principal f_c s2.regs.interest_accrued
                s2.regs.amortized_total s2.regs.interest_settled_total),
              fixed_factor := f_s, variable_factor := f_v * f_c }
          match dayLoop cif principal apy vir cap a0 a1 ds
              { s2 with count := s2.count + 1 } with
          | none => none
          | some (.error e) => some (.error e)
          | some (.ok rows) => some (.ok (row :: rows))

/- `get_normalized_cdi_indexes` of fincore.rs lines 610-615 instantiated
with the in-memory backend (`.unwrap()` is safe: `get_cdi_indexes` never
errors). -/

def imb_cdi_norm (start_date end_date : Int) : List ℚ :=
  match get_cdi_indexes start_date end_date with
  | .ok l => l.map (fun index => index.value / 100)
  | .error _ => []

/- `get_daily_returns`, fincore.rs lines 599-769, with the keyword-argument
glue replaced by typed parameters and the backend by the explicit
`cdi_norm` function.  The outer `Option` distinguishes the runs on which
the source function never returns (`none`: an exhausted index iterator
unwrapped in B.0, or the non-terminating event loop, see `processEvents`)
from the runs that return a `Result` (`some`). -/

def get_daily_returns (cif : ℚ → ℚ → Bool → ℚ) (cdi_norm : Int → Int → List ℚ)
    (principal apy : ℚ) (amortizations : List Amortization)
    (vir : Option VariableIndex) (capitalisation : Capitalisation) :
    Option (Except String (List DailyReturn)) :=
  if principal = ZERO then some (.ok [])
  else if principal < CENTI then
    some (.error "principal value should be at least 0.01")
  else if amortizations.length < 2 then
    some (.error "at least two amortizations are required: the start of the schedule, and its end")
  else if vir = none ∧ capitalisation = Capitalisation.Days252 then
    some (.error "fixed interest rates should not use the 252 working days capitalisation")
  else if is_cdi vir ∧ capitalisation ≠ Capitalisation.Days252 then
    some (.error "CDI should use the 252 working days capitalisation")
  else
    match check_ratios amortizations ZERO with
    | .error e => some (.error e)
    | .ok aux =>
      if ¬ is_close_to aux ONE 1e-9 then
        some (.error "the accumulated percentage of the amortizations does not reach 1.0")
      else
        match amortizations with
        | a0 :: a1 :: rest =>
          let last_date := (amortizations.getLastD default).date
          match vir with
          | some v =>
            if v.code = VrIndex.CDI then
              dayLoop cif principal apy vir capitalisation a0 a1
                (date_range a0.date last_date)
                { regs := Registers.new, period := 1, count := 1,
                  cur := a0, next := a1, rest := rest,
                  idxs := cdi_norm a0.date last_date }
            else some (.error "Unsupported variable index")
          | none =>
            dayLoop cif principal apy vir capitalisation a0 a1
              (date_range a0.date last_date)
              { regs := Registers.new, period := 1, count := 1,
                cur := a0, next := a1, rest := rest, idxs := [] }
        | _ =>
          some (.error "at least two amortizations are required: the start of the schedule, and its end")

/- The insertion validation loop of `preprocess_bullet`
(fincore.rs lines 920-931). -/

def check_insertions (zero_date due : Int) : List AmortizationBare → Except String Unit
  | [] => .ok ()
  | x :: xs =>
    if x.value ≤ ZERO then
      .error "invalid value for insertion entry - should be positive"
    else if x.date ≤ zero_date then
      .error "insertion date must succeed zero_date"
    else if x.date > due then
      .error "insertion date succeeds the regular payment date"
    else check_insertions zero_date due xs

/- The merge of the two-entry regular bullet schedule with the insertion
list (fincore.rs lines 976-1021).  An insertion becomes an `Amortization`
with ratio `ZERO`, `amortizes_interest = true` and a whole-period DCT
override; its `value` field is not carried over. -/

def bullet_merge (zero_date due_regular : Int) :
    List Amortization → List AmortizationBare → List Amortization
  | ls, [] => ls
  | [], i :: is2 =>
    { date := i.date, amortization_frac := ZERO, amortizes_interest := true,
      dct_override := some { date_from := zero_date, date_to := due_regular, predates_first_amortization := true } } :: bullet_merge zero_date due_regular [] is2
  | l :: ls, i :: is2 =>
    if l.date ≤ i.date then l :: bullet_merge zero_date due_regular ls (i :: is2)
    else
      { date := i.date, amortization_frac := ZERO, amortizes_interest := true,
        dct_override := some { date_from := zero_date, date_to := due_regular, predates_first_amortization := true } } :: bullet_merge zero_date due_regular (l :: ls) is2
termination_by ls is2 => ls.length + is2.length

/- `preprocess_bullet`, fincore.rs lines 892-1027 (the 365-capitalisation
legacy warning println of line 934 has no effect on the result and is
dropped). -/

def preprocess_bullet (principal apy : ℚ) (zero_date : Int) (term : Int)
    (insertions : List AmortizationBare) (anniversary_date : Option Int)
    (capitalisation : Capitalisation) (vir : Option VariableIndex)
    (calc_date : Option CalcDate) : Except String (List Amortization) :=
  if term ≤ 0 then
    .error "term must be greater than or equal to one"
  else if anniversary_date.any (fun a => a ≤ zero_date) then
    .error "the anniversary_date must be greater than zero_date"
  else if anniversary_date.any (fun a => |a - (zero_date + term * 30)| > 20) then
    .error "the anniversary_date is more than 20 days away from the regular payment date"
  else
    match check_insertions zero_date (anniversary_date.getD (zero_date + term * 30)) insertions with
    | .error e => .error e
    | .ok _ =>
      if insertions.isEmpty ∧ vir = none then
        .ok [{ date := zero_date, amortization_frac := ZERO,
               amortizes_interest := false, dct_override := none },
             { date := anniversary_date.getD (zero_date + term * 30),
               amortization_frac := ONE, amortizes_interest := true,
               dct_override :=
                 match anniversary_date with
                 | some a => some { date_from := a, date_to := a, predates_first_amortization := false }
                 | none => none }]
      else
        .ok (bullet_merge zero_date (anniversary_date.getD (zero_date + term * 30))
          [{ date := zero_date, amortization_frac := ZERO,
             amortizes_interest := false, dct_override := none },
           { date := anniversary_date.getD (zero_date + term * 30),
             amortization_frac := ONE, amortizes_interest := true,
             dct_override := none }]
          insertions)

/- `get_bullet_payments`, fincore.rs lines 1422-1453: preprocess, override
the capitalisation to 252 when the variable index is CDI, then run the
payments engine. -/

def get_bullet_payments (cif : ℚ → ℚ → Bool → ℚ) (cdiF : Int → Int → Int → ℚ × Int)
    (principal apy : ℚ) (zero_date : Int) (term : Int)
    (insertions : List AmortizationBare) (anniversary_date : Option Int)
    (vir : Option VariableIndex) (calc_date : Option CalcDate)
    (capitalisation : Capitalisation) (tax_exempt : Option Bool)
    (gain_output : GainOutputMode) : Except String (List Payment) :=
  match preprocess_bullet principal apy zero_date term insertions anniversary_date
      capitalisation vir calc_date with
  | .error e => .error e
  | .ok sched =>
    let cap2 :=
      match vir with
      | some v => if v.code = VrIndex.CDI then Capitalisation.Days252 else capitalisation
      | none => capitalisation
    get_payments_table cif cdiF principal apy sched vir cap2 calc_date tax_exempt gain_output

/- The closed day range `[start_date, end_date]` in explicit form; proved
below to coincide with `date_range` when `start_date ≤ end_date`. -/

def closed_days (start_date end_date : Int) : List Int :=
  (List.range (end_date - start_date + 1).toNat).map (fun (i : Nat) => start_date + (i : Int))

/- Claim C6's description of the backend output, with the day range read as
the closed interval `[begin, end]` (the amended reading): one `DailyIndex`
per calendar day of the range that is not in the ignore set. -/

def claimed_cdi_entries (begin_d end_d : Int) : List DailyIndex :=
  ((closed_days begin_d end_d).filter (fun d => !(ignore_cdi.contains d))).map
    (fun d => { date := d, value := registry_value d })

/- Claim C6's factor: the product of `1 + value_d * pct * 0.01` over the
claimed entries. -/

def claimed_cdi_product (begin_d end_d : Int) (pct : Int) : ℚ :=
  ((claimed_cdi_entries begin_d end_d).map
    (fun i => 1 + i.value * (pct : ℚ) * 0.01)).prod

/- Concrete fixtures used by the scenario theorems below. -/

/- The schedule `preprocess_bullet` produces for zero_date 2022-01-01,
term 12, no insertions, no anniversary, no variable index. -/

def bullet_e0 : Amortization :=
  { date := civil 2022 1 1, amortization_frac := ZERO,
    amortizes_interest := false, dct_override := none }

def bullet_e1 : Amortization :=
  { date := civil 2022 12 27, amortization_frac := ONE,
    amortizes_interest := true, dct_override := none }

/- The single payment row the engine emits for scenario C2
(principal 1000, apy 0.10, capitalisation 360). -/

def bullet_row : Payment :=
  { no := 1, date := civil 2022 12 27, raw := 1100, tax := 20, net := 1080,
    gain := 100, amort := 1000, bal := 0 }

/- The register file after that row's phase B.1. -/

def bullet_regs : Registers :=
  { interest_current := 100, interest_accrued := 100,
    interest_settled_current := 100, interest_settled_total := 100,
    interest_deferred := 0, interest_daily := 0,
    afrac_current := 1, afrac_regular := 1,
    amortized_current := 1000, amortized_total := 1000 }

/- C1 counterexample fixture: same bullet schedule except that the final
entry does not settle interest. -/

def noint_e1 : Amortization :=
  { date := civil 2022 12 27, amortization_frac := ONE,
    amortizes_interest := false, dct_override := none }

def noint_row : Payment :=
  { no := 1, date := civil 2022 12 27, raw := 1000, tax := 0, net := 1000,
    gain := 100, amort := 1000, bal := 100 }

def noint_regs : Registers :=
  { interest_current := 100, interest_accrued := 100,
    interest_settled_current := 0, interest_settled_total := 0,
    interest_deferred := 0, interest_daily := 0,
    afrac_current := 1, afrac_regular := 1,
    amortized_current := 1000, amortized_total := 1000 }

/- C5 fixture: bullet with a 600.00 prepayment inserted at 2022-07-01
(apy 0; the insertion's value is dropped by `preprocess_bullet`, so the
emitted prepayment row amortizes nothing and the balance stays 1000). -/

def prepay_insertion : AmortizationBare :=
  { date := civil 2022 7 1, value := 600, dct_override := none }

def prepay_mid : Amortization :=
  { date := civil 2022 7 1, amortization_frac := ZERO,
    amortizes_interest := true,
    dct_override := some { date_from := civil 2022 1 1, date_to := civil 2022 12 27, predates_first_amortization := true } }

def prepay_row1 : Payment :=
  { no := 1, date := civil 2022 7 1, raw := 0, tax := 0, net := 0,
    gain := 0, amort := 0, bal := 1000 }

def prepay_row2 : Payment :=
  { no := 2, date := civil 2022 12 27, raw := 1000, tax := 0, net := 1000,
    gain := 0, amort := 1000, bal := 0 }

/- Register file after the final (maturity) row of the prepayment scenario. -/
def prepay_regs2 : Registers :=
  { interest_current := 0, interest_accrued := 0,
    interest_settled_current := 0, interest_settled_total := 0,
    interest_deferred := 0, interest_daily := 0,
    afrac_current := 1, afrac_regular := 1,
    amortized_current := 1000, amortized_total := 1000 }

/- A single-entry schedule whose ratio overflows 1 (fixture for C4). -/
def over_entry : Amortization :=
  { date := 0, amortization_frac := 2, amortizes_interest := false, dct_override := none }

/- Two-entry schedule fixture for the daily-returns run (C8):
2022-01-01 origination, 2022-01-31 maturity. -/
def daily_e0 : Amortization :=
  { date := civil 2022 1 1, amortization_frac := ZERO,
    amortizes_interest := false, dct_override := none }

def daily_e1 : Amortization :=
  { date := civil 2022 1 31, amortization_frac := ONE,
    amortizes_interest := true, dct_override := none }

theorem chrono_diff_le (b e : Int) (hb : in_chrono_range b) (he : in_chrono_range e) :
    e - b ≤ 2147483647 := by
  have h1 : naive_date_min = -96465658 := by decide
  have h2 : naive_date_max = 95026601 := by decide
  unfold in_chrono_range at hb he
  omega

theorem find_bracket_eval (d : Int) (h1 : 0 < d) (h2 : d ≤ 2147483647) :
    find_bracket d REVENUE_TAX_BRACKETS =
      some (if d ≤ 180 then 0.225 else if d ≤ 360 then 0.2
        else if d ≤ 720 then 0.175 else 0.15) := by
  simp only [REVENUE_TAX_BRACKETS, find_bracket]
  split_ifs <;> first | rfl | omega

theorem crt_eval (b e : Int) (h : b < e) (hb : in_chrono_range b) (he : in_chrono_range e) :
    calculate_revenue_tax b e =
      some (if e - b ≤ 180 then 0.225 else if e - b ≤ 360 then 0.2
        else if e - b ≤ 720 then 0.175 else 0.15) := by
  rw [calculate_revenue_tax, if_neg (by omega)]
  exact find_bracket_eval (e - b) (by omega) (chrono_diff_le b e hb he)

/-- Claim C3: for every pair of chrono-representable dates with begin < end and
delta = end - begin calendar days, `calculate_revenue_tax` returns 0.225 when
0 < delta <= 180, 0.20 when 180 < delta <= 360, 0.175 when 360 < delta <= 720
and 0.15 when delta > 720 - each bracket lower-exclusive and upper-inclusive -
and the returned rate is monotone non-increasing in delta. -/
theorem claim_C3 (b e b2 e2 : Int) (h : b < e) (h2 : b2 < e2)
    (hb : in_chrono_range b) (he : in_chrono_range e)
    (hb2 : in_chrono_range b2) (he2 : in_chrono_range e2) :
    ((0 < e - b ∧ e - b ≤ 180) → calculate_revenue_tax b e = some 0.225) ∧
    ((180 < e - b ∧ e - b ≤ 360) → calculate_revenue_tax b e = some 0.2) ∧
    ((360 < e - b ∧ e - b ≤ 720) → calculate_revenue_tax b e = some 0.175) ∧
    (720 < e - b → calculate_revenue_tax b e = some 0.15) ∧
    (e - b ≤ e2 - b2 → ∀ r r2 : ℚ, calculate_revenue_tax b e = some r →
      calculate_revenue_tax b2 e2 = some r2 → r2 ≤ r) := by
  have hv := crt_eval b e h hb he
  have hv2 := crt_eval b2 e2 h2 hb2 he2
  refine ⟨?_, ?_, ?_, ?_, ?_⟩
  · intro hc; rw [hv, if_pos hc.2]
  · intro hc; rw [hv, if_neg (by omega), if_pos hc.2]
  · intro hc; rw [hv, if_neg (by omega), if_neg (by omega), if_pos hc.2]
  · intro hc; rw [hv, if_neg (by omega), if_neg (by omega), if_neg (by omega)]
  · intro hle r r2 hr hr2
    rw [hv] at hr
    rw [hv2] at hr2
    have hr' := Option.some.inj hr
    have hr2' := Option.some.inj hr2
    subst hr' hr2'
    split_ifs <;> norm_num <;> omega

/-- Witness for C3 at delta = 100 and delta = 400. -/
theorem claim_C3_witness :
    calculate_revenue_tax 0 100 = some 0.225 ∧ calculate_revenue_tax 0 400 = some 0.175 := by
  have h := claim_C3 0 100 0 400 (by decide) (by decide) (by decide) (by decide)
    (by decide) (by decide)
  have h2 := claim_C3 0 400 0 100 (by decide) (by decide) (by decide) (by decide)
    (by decide) (by decide)
  exact ⟨h.1 (by decide), h2.2.2.1 (by decide)⟩

/-- Claim C9: for every pair of chrono-representable dates with begin < end,
`calculate_revenue_tax` returns one of the bracket rates without panicking
(the trailing panic, modelled by `none`, is unreachable because the brackets
cover every day count representable as a `NaiveDate` difference); for
end <= begin it panics ("end date should be greater than the begin date",
modelled by `none`). -/
theorem claim_C9 (b e : Int) (hb : in_chrono_range b) (he : in_chrono_range e) :
    (b < e → (calculate_revenue_tax b e).isSome) ∧
    (e ≤ b → calculate_revenue_tax b e = none) := by
  constructor
  · intro h; rw [crt_eval b e h hb he]; rfl
  · intro h; rw [calculate_revenue_tax, if_pos h]

/-- Witness for C9 at 2022-01-01 to 2022-12-27 and at equal dates. -/
theorem claim_C9_witness :
    (calculate_revenue_tax 18993 19353).isSome ∧ calculate_revenue_tax 5 5 = none := by
  refine ⟨(claim_C9 18993 19353 (by decide) (by decide)).1 (by decide),
    (claim_C9 5 5 (by decide) (by decide)).2 (by decide)⟩

theorem closed_days_cons (s e : Int) (h : s < e) :
    closed_days s e = s :: closed_days (s + 1) e := by
  unfold closed_days
  have hn : (e - s + 1).toNat = (e - (s + 1) + 1).toNat + 1 := by omega
  rw [hn, List.range_succ_eq_map, List.map_cons, List.map_map]
  refine List.cons_eq_cons.mpr ⟨by norm_num, ?_⟩
  apply List.map_congr_left
  intro a _
  simp [Function.comp]
  omega

theorem closed_days_self (s : Int) : closed_days s s = [s] := by
  unfold closed_days
  norm_num [List.range_succ]

theorem date_range_eq_closed (s e : Int) (h : s ≤ e) : date_range s e = closed_days s e := by
  rw [date_range]
  by_cases hlt : s < e
  · rw [if_pos hlt, date_range_eq_closed (s + 1) e (by omega), closed_days_cons s e hlt]
  · have heq : s = e := by omega
    subst heq
    rw [if_neg hlt, closed_days_self]
termination_by (e - s).toNat
decreasing_by simp_wf; omega

theorem mem_closed_days (d s e : Int) (h : s ≤ e) :
    d ∈ closed_days s e ↔ s ≤ d ∧ d ≤ e := by
  unfold closed_days
  simp only [List.mem_map, List.mem_range]
  constructor
  · rintro ⟨i, hi, rfl⟩
    omega
  · intro hd
    exact ⟨(d - s).toNat, by omega, by omega⟩

theorem filterMap_if_eq (P : Int → Bool) (f : Int → DailyIndex) (l : List Int) :
    l.filterMap (fun d => if P d then none else some (f d)) =
      (l.filter (fun d => !(P d))).map f := by
  induction l with
  | nil => rfl
  | cons a t ih =>
    cases hP : P a <;>
      simp [List.filterMap_cons, List.filter_cons, hP, ih]

theorem get_cdi_indexes_closed (b e : Int) (h : b ≤ e) :
    get_cdi_indexes b e = .ok (claimed_cdi_entries b e) := by
  unfold get_cdi_indexes claimed_cdi_entries
  rw [date_range_eq_closed b e h,
    filterMap_if_eq (fun d => ignore_cdi.contains d)
      (fun d => { date := d, value := registry_value d })]

theorem cdi_fold (pct : Int) (l : List DailyIndex)
    (hl : ∀ x ∈ l, ignore_cdi.contains x.date = false) :
    ∀ (a : ℚ) (n : Int),
      l.foldl
        (fun acc index =>
          if ignore_cdi.contains index.date then acc
          else (acc.1 * (ONE + index.value * (pct : ℚ) * CENTI), acc.2 + 1)) (a, n) =
      (a * ((l.map (fun i => 1 + i.value * (pct : ℚ) * 0.01)).prod), n + l.length) := by
  induction l with
  | nil => intro a n; simp
  | cons x t ih =>
    intro a n
    rw [List.foldl_cons,
      if_neg (by rw [hl x (List.mem_cons_self x t)]; exact Bool.false_ne_true)]
    rw [ih (fun y hy => hl y (List.mem_cons_of_mem x hy)) (a * (ONE + x.value * (pct : ℚ) * CENTI)) (n + 1)]
    simp only [List.map_cons, List.prod_cons, List.length_cons, Prod.mk.injEq]
    constructor
    · show a * (ONE + x.value * (pct : ℚ) * CENTI) * _ = _
      rw [show ONE = (1 : ℚ) from rfl, show CENTI = (0.01 : ℚ) from rfl]
      ring
    · push_cast
      ring

theorem claimed_entries_not_ignored (b e : Int) :
    ∀ x ∈ claimed_cdi_entries b e, ignore_cdi.contains x.date = false := by
  intro x hx
  unfold claimed_cdi_entries at hx
  obtain ⟨d, hd, rfl⟩ := List.mem_map.mp hx
  have := List.of_mem_filter hd
  simpa using this

/-- Claim C6 (amended): for every begin <= end, `get_cdi_indexes` yields
exactly one `DailyIndex` per calendar day of the CLOSED range [begin, end]
that is not in the ignore set (`date_range` is closed, not half-open as the
claim stated), and `calculate_cdi_factor` returns the product of
`1 + value_d * pct * 0.01` over exactly those entries together with their
count. -/
theorem claim_C6 (b e pct : Int) (h : b ≤ e) :
    get_cdi_indexes b e = .ok (claimed_cdi_entries b e) ∧
    calculate_cdi_factor b e pct =
      .ok (claimed_cdi_product b e pct, ((claimed_cdi_entries b e).length : Int)) := by
  refine ⟨get_cdi_indexes_closed b e h, ?_⟩
  unfold calculate_cdi_factor
  rw [get_cdi_indexes_closed b e h]
  dsimp only
  rw [cdi_fold pct _ (claimed_entries_not_ignored b e) ONE 0]
  unfold claimed_cdi_product
  rw [show ONE = (1 : ℚ) from rfl, one_mul, zero_add]

/-- Witness for C6 over 2021-01-04 .. 2021-01-06 at 100%. -/
theorem claim_C6_witness :
    get_cdi_indexes (civil 2021 1 4) (civil 2021 1 6) =
      .ok (claimed_cdi_entries (civil 2021 1 4) (civil 2021 1 6)) ∧
    calculate_cdi_factor (civil 2021 1 4) (civil 2021 1 6) 100 =
      .ok (claimed_cdi_product (civil 2021 1 4) (civil 2021 1 6) 100,
        ((claimed_cdi_entries (civil 2021 1 4) (civil 2021 1 6)).length : Int)) :=
  claim_C6 (civil 2021 1 4) (civil 2021 1 6) 100 (by decide)

/-- Counterexample to C6 as stated: for begin = end = 2022-01-03 the claimed
half-open range [begin, end) is empty, yet `get_cdi_indexes` returns one
entry (the closed range [begin, end] includes the day). -/
theorem claim_C6_counterexample :
    get_cdi_indexes (civil 2022 1 3) (civil 2022 1 3) =
      .ok [{ date := civil 2022 1 3, value := 0.034749 }] ∧
    get_cdi_indexes (civil 2022 1 3) (civil 2022 1 3) ≠ .ok [] := by
  have h1 : date_range (civil 2022 1 3) (civil 2022 1 3) = [civil 2022 1 3] := by
    rw [date_range, if_neg (lt_irrefl _)]
  have h2 : registry_value (civil 2022 1 3) = 0.034749 := by rfl
  have hc : civil 2022 1 3 ∉ ignore_cdi := by decide
  constructor
  · unfold get_cdi_indexes
    rw [h1]
    simp [List.filterMap_cons, hc, h2]
  · unfold get_cdi_indexes
    rw [h1]
    simp [List.filterMap_cons, hc]

theorem lookup_none_of (d : Int) (l : List (Int × ℚ)) (h : ∀ p ∈ l, p.1 ≠ d) :
    l.lookup d = none := by
  induction l with
  | nil => rfl
  | cons x t ih =>
    have hf : (d == x.1) = false := by
      have := h x (List.mem_cons_self x t)
      simp [beq_eq_false_iff_ne]
      omega
    rw [List.lookup_cons, hf]
    exact ih (fun p hp => h p (List.mem_cons_of_mem x hp))

theorem registry_value_early (d : Int) (h : d < civil 2017 12 29) :
    registry_value d = ZERO := by
  have hkeys : ∀ p ∈ registry_cdi, civil 2017 12 29 ≤ p.1 := by decide
  unfold registry_value
  rw [lookup_none_of d registry_cdi (fun p hp => by have := hkeys p hp; omega)]
  unfold last_known_value
  have hfil : registry_cdi.filter (fun p => p.1 < d) = [] := by
    rw [List.filter_eq_nil_iff]
    intro p hp
    have := hkeys p hp
    simp
    omega
  rw [hfil]
  rfl

theorem ignore_after_2017 : ∀ x ∈ ignore_cdi, civil 2017 12 29 < x := by decide

/-- Claim C10: `InMemoryBackend.get_cdi_indexes` never returns an error; a
non-ignored date before the earliest registry date 2017-12-29 gets a
`DailyIndex` value of 0 (`registry_value` falls back to `ZERO`); and over a
range that lies entirely before 2017-12-29, `calculate_cdi_factor` still
counts every day in n_days while the factor stays exactly 1. -/
theorem claim_C10 :
    (∀ b e : Int, (get_cdi_indexes b e).isOk) ∧
    (∀ d : Int, d < civil 2017 12 29 → registry_value d = ZERO) ∧
    (∀ b e pct : Int, b ≤ e → e < civil 2017 12 29 →
      calculate_cdi_factor b e pct = .ok (1, e - b + 1)) := by
  refine ⟨fun b e => rfl, registry_value_early, fun b e pct hbe he => ?_⟩
  have h6 := (claim_C6 b e pct hbe).2
  rw [h6]
  have hdays : ∀ d ∈ closed_days b e, d < civil 2017 12 29 := by
    intro d hd
    have := (mem_closed_days d b e hbe).mp hd
    omega
  have hfil : (closed_days b e).filter (fun d => !(ignore_cdi.contains d)) = closed_days b e := by
    rw [List.filter_eq_self]
    intro d hd
    have hlt := hdays d hd
    have hnm : d ∉ ignore_cdi := fun hmem => by have := ignore_after_2017 d hmem; omega
    simpa using hnm
  have hlen : (claimed_cdi_entries b e).length = (closed_days b e).length := by
    unfold claimed_cdi_entries
    rw [hfil, List.length_map]
  have hprod : claimed_cdi_product b e pct = 1 := by
    unfold claimed_cdi_product claimed_cdi_entries
    rw [hfil]
    apply List.prod_eq_one
    intro x hx
    simp only [List.map_map, List.mem_map] at hx
    obtain ⟨d, hd, rfl⟩ := hx
    have := registry_value_early d (hdays d hd)
    simp [Function.comp, this, ZERO]
  have hclen : ((closed_days b e).length : Int) = e - b + 1 := by
    unfold closed_days
    rw [List.length_map, List.length_range]
    omega
  rw [hprod, hlen, hclen]

/-- Witness for C10 on dates in January 2017. -/
theorem claim_C10_witness :
    (get_cdi_indexes 0 5).isOk ∧
    registry_value (civil 2017 1 2) = ZERO ∧
    calculate_cdi_factor (civil 2017 1 2) (civil 2017 1 5) 100 =
      .ok (1, civil 2017 1 5 - civil 2017 1 2 + 1) :=
  ⟨claim_C10.1 0 5, claim_C10.2.1 (civil 2017 1 2) (by decide),
    claim_C10.2.2 (civil 2017 1 2) (civil 2017 1 5) 100 (by decide) (by decide)⟩

theorem ptRun_zero_last (cif : ℚ → ℚ → Bool → ℚ) (cdiF : Int → Int → Int → ℚ × Int)
    (principal apy : ℚ) (vir : Option VariableIndex) (cap : Capitalisation)
    (calcd : CalcDate) (sched_start : Int) (tax_exempt : Option Bool)
    (gain_output : GainOutputMode) :
    ∀ (pairs : List (Amortization × Amortization)) (num : Nat) (regs : Registers)
      (l : List (Payment × Registers)),
      ptRun cif cdiF principal apy vir cap calcd sched_start tax_exempt gain_output
        pairs num regs = .ok l →
      ∀ (i : Nat) (h : i < l.length), (l.get ⟨i, h⟩).1.bal = ZERO → i = l.length - 1 := by
  intro pairs
  induction pairs with
  | nil =>
    intro num regs l hok i hi hbal
    rw [ptRun] at hok
    have : l = [] := by simpa using hok.symm
    subst this
    simp at hi
  | cons pr rest ih =>
    obtain ⟨ent0, ent1⟩ := pr
    intro num regs l hok i hi hbal
    rw [ptRun] at hok
    dsimp only at hok
    split at hok
    · simp at hok
    · split at hok
      · split at hok
        · have hl := Except.ok.inj hok
          subst hl
          simp only [List.length_singleton] at hi ⊢
          omega
        · split at hok
          · simp at hok
          · rename_i hbalne _ l' heq2
            have hl := Except.ok.inj hok
            subst hl
            cases i with
            | zero =>
              simp only [List.get] at hbal
              exact absurd hbal hbalne
            | succ j =>
              have hj : j < l'.length := by
                simp only [List.length_cons] at hi
                omega
              have := ih (num + 1) _ l' heq2 j hj (by simpa using hbal)
              simp only [List.length_cons]
              omega
      · exact ih (num + 1) regs l hok i hi hbal

/-- Claim C7: in every run of `get_payments_table` - for any interest-factor
function, backend, schedule and options - once an emitted payment has a
rounded balance of 0, no further payments are emitted: that payment is the
last element of the returned table. -/
theorem claim_C7 (cif : ℚ → ℚ → Bool → ℚ) (cdiF : Int → Int → Int → ℚ × Int)
    (principal apy : ℚ) (amortizations : List Amortization)
    (vir : Option VariableIndex) (capitalisation : Capitalisation)
    (calc_date : Option CalcDate) (tax_exempt : Option Bool)
    (gain_output : GainOutputMode) (ps : List Payment)
    (hok : get_payments_table cif cdiF principal apy amortizations vir capitalisation
      calc_date tax_exempt gain_output = .ok ps) :
    ∀ (i : Nat) (h : i < ps.length), (ps.get ⟨i, h⟩).bal = ZERO → i = ps.length - 1 := by
  unfold get_payments_table at hok
  split at hok
  · have : ps = [] := by simpa using hok.symm
    subst this
    intro i hi
    simp at hi
  · split at hok
    · simp at hok
    · split at hok
      · simp at hok
      · split at hok
        · simp at hok
        · split at hok
          · simp at hok
          · split at hok
            · simp at hok
            · rename_i aux heq
              dsimp only at hok
              split at hok
              · simp at hok
              · split at hok
                · simp at hok
                · rename_i l heq2
                  have hps := Except.ok.inj hok
                  subst hps
                  intro i hi hbal
                  rw [List.length_map] at hi ⊢
                  refine ptRun_zero_last cif cdiF principal apy vir capitalisation _ _
                    tax_exempt gain_output _ 0 Registers.new l heq2 i hi ?_
                  rw [← hbal, List.get_map]

theorem bullet_ptRun_eval :
    ptRun cifSpec imb_cdi_factor 1000 (1/10) none Capitalisation.Days360
      { value := civil 2022 12 27, runaway := false } (civil 2022 1 1) none
      GainOutputMode.Current [(bullet_e0, bullet_e1)] 0 Registers.new =
      .ok [(bullet_row, bullet_regs)] := by
  have hd1 : civil 2022 1 1 = 18993 := by decide
  have hd2 : civil 2022 12 27 = 19353 := by decide
  rw [ptRun, ptRun]
  norm_num [bullet_e0, bullet_e1, hd1, hd2, compute_f_s, cifSpec, stepB1, mkPayment,
    calc_balance, Registers.new, bullet_row, bullet_regs, roundDp, roundEven,
    calculate_revenue_tax, find_bracket, REVENUE_TAX_BRACKETS, ZERO, ONE, CENTI,
    Int.even_iff, min_def, Option.getD, Except.ok.injEq, Prod.mk.injEq,
    Payment.mk.injEq, Registers.mk.injEq]

theorem bullet_gpt_eval :
    get_payments_table cifSpec imb_cdi_factor 1000 (1/10) [bullet_e0, bullet_e1] none
      Capitalisation.Days360 none none GainOutputMode.Current = .ok [bullet_row] := by
  norm_num [get_payments_table, check_ratios, is_close_to, is_cdi,
    ZERO, ONE, CENTI, List.getLastD, List.headD, List.zip, List.zipWith, Option.getD,
    show (1e-9 : ℚ) = 1/1000000000 from by norm_num,
    show bullet_e0.amortization_frac = 0 from rfl,
    show bullet_e1.amortization_frac = 1 from rfl,
    show bullet_e1.date = civil 2022 12 27 from rfl,
    show bullet_e0.date = civil 2022 1 1 from rfl]
  rw [if_neg (by decide), bullet_ptRun_eval]
  rfl

theorem bullet_preprocess_eval :
    preprocess_bullet 1000 (1/10) (civil 2022 1 1) 12 [] none Capitalisation.Days360
      none none = .ok [bullet_e0, bullet_e1] := by
  norm_num [preprocess_bullet, check_insertions, bullet_e0, bullet_e1, ZERO, ONE,
    Option.getD, List.isEmpty, Amortization.mk.injEq,
    show civil 2022 1 1 + 12 * 30 = civil 2022 12 27 from by decide,
    show civil 2022 1 1 + 360 = civil 2022 12 27 from by decide]

/-- Claim C2 (amended): for principal 1000.00, apy 0.10, zero date
2022-01-01, term 12, capitalisation 360, no insertions, no variable index
and no anniversary date, the bullet payments wrapper returns exactly one
payment row dated 2022-12-27 (zero_date + 12*30 days) with amort 1000.00,
gain 100.00, raw 1100.00, tax 20.00 (the 360-day holding period falls in
the (180, 360] bracket at 20%), net 1080.00 and bal 0.00. -/
theorem claim_C2 :
    get_bullet_payments cifSpec imb_cdi_factor 1000 (1/10) (civil 2022 1 1) 12 [] none
      none none Capitalisation.Days360 none GainOutputMode.Current = .ok [bullet_row] := by
  unfold get_bullet_payments
  rw [bullet_preprocess_eval]
  exact bullet_gpt_eval

/-- Counterexample to C2 as stated: the single returned row is dated
2022-12-27, not 2023-01-01, its tax is 20.00, not 15.00, and its net is
1080.00, not 1085.00. -/
theorem claim_C2_counterexample :
    get_bullet_payments cifSpec imb_cdi_factor 1000 (1/10) (civil 2022 1 1) 12 [] none
      none none Capitalisation.Days360 none GainOutputMode.Current = .ok [bullet_row] ∧
    bullet_row.date ≠ civil 2023 1 1 ∧ bullet_row.tax ≠ 15 ∧ bullet_row.net ≠ 1085 := by
  refine ⟨?_, ?_, ?_, ?_⟩
  · unfold get_bullet_payments
    rw [bullet_preprocess_eval]
    exact bullet_gpt_eval
  · norm_num [bullet_row, show civil 2022 12 27 = 19353 from by decide,
      show civil 2023 1 1 = 19358 from by decide]
  · norm_num [bullet_row]
  · norm_num [bullet_row]

theorem noint_ptRun_eval :
    ptRun cifSpec imb_cdi_factor 1000 (1/10) none Capitalisation.Days360
      { value := civil 2022 12 27, runaway := false } (civil 2022 1 1) none
      GainOutputMode.Current [(bullet_e0, noint_e1)] 0 Registers.new =
      .ok [(noint_row, noint_regs)] := by
  have hd1 : civil 2022 1 1 = 18993 := by decide
  have hd2 : civil 2022 12 27 = 19353 := by decide
  rw [ptRun, ptRun]
  norm_num [bullet_e0, noint_e1, hd1, hd2, compute_f_s, cifSpec, stepB1, mkPayment,
    calc_balance, Registers.new, noint_row, noint_regs, roundDp, roundEven,
    calculate_revenue_tax, find_bracket, REVENUE_TAX_BRACKETS, ZERO, ONE, CENTI,
    Int.even_iff, min_def, Option.getD, Except.ok.injEq, Prod.mk.injEq,
    Payment.mk.injEq, Registers.mk.injEq]
  rw [ptRun]

theorem noint_gpt_eval :
    get_payments_table cifSpec imb_cdi_factor 1000 (1/10) [bullet_e0, noint_e1] none
      Capitalisation.Days360 none none GainOutputMode.Current = .ok [noint_row] := by
  norm_num [get_payments_table, check_ratios, is_close_to, is_cdi,
    ZERO, ONE, CENTI, List.getLastD, List.headD, List.zip, List.zipWith, Option.getD,
    show (1e-9 : ℚ) = 1/1000000000 from by norm_num,
    show bullet_e0.amortization_frac = 0 from rfl,
    show noint_e1.amortization_frac = 1 from rfl,
    show noint_e1.date = civil 2022 12 27 from rfl,
    show bullet_e0.date = civil 2022 1 1 from rfl]
  rw [if_neg (by decide), noint_ptRun_eval]
  rfl

/-- Counterexample to C1 as stated: the schedule
[(2022-01-01, ratio 0), (2022-12-27, ratio 1, amortizes_interest = false)]
is accepted by `get_payments_table` (ratios sum to exactly 1) under the
default calc date, yet the bal field of the last emitted payment is 100.00,
which does not round to 0: the final entry settles no interest, so the
accrued interest stays in the balance. -/
theorem claim_C1_counterexample :
    get_payments_table cifSpec imb_cdi_factor 1000 (1/10) [bullet_e0, noint_e1] none
      Capitalisation.Days360 none none GainOutputMode.Current = .ok [noint_row] ∧
    noint_row.bal = 100 ∧ (100 : ℚ) ≠ 0 := by
  refine ⟨noint_gpt_eval, by norm_num [noint_row], by norm_num⟩


theorem prepay_preprocess_eval :
    preprocess_bullet 1000 0 (civil 2022 1 1) 12 [prepay_insertion] none
      Capitalisation.Days360 none none = .ok [bullet_e0, prepay_mid, bullet_e1] := by
  have hd1 : civil 2022 1 1 = 18993 := by decide
  have hd2 : civil 2022 12 27 = 19353 := by decide
  have hd3 : civil 2022 7 1 = 19174 := by decide
  norm_num [preprocess_bullet, check_insertions, prepay_insertion, bullet_merge,
    bullet_e0, prepay_mid, bullet_e1, ZERO, ONE, Option.getD, List.isEmpty,
    Amortization.mk.injEq, DctOverride.mk.injEq, hd1, hd2, hd3]

theorem prepay_ptRun_eval :
    ptRun cifSpec imb_cdi_factor 1000 0 none Capitalisation.Days360
      { value := civil 2022 12 27, runaway := false } (civil 2022 1 1) none
      GainOutputMode.Current [(bullet_e0, prepay_mid), (prepay_mid, bullet_e1)] 0
      Registers.new = .ok [(prepay_row1, Registers.new), (prepay_row2, prepay_regs2)] := by
  have hd1 : civil 2022 1 1 = 18993 := by decide
  have hd2 : civil 2022 12 27 = 19353 := by decide
  have hd3 : civil 2022 7 1 = 19174 := by decide
  rw [ptRun]
  norm_num [bullet_e0, prepay_mid, bullet_e1, hd1, hd2, hd3, compute_f_s, cifSpec,
    stepB1, mkPayment, calc_balance, Registers.new, prepay_row1, prepay_row2,
    prepay_regs2, roundDp, roundEven, calculate_revenue_tax, find_bracket,
    REVENUE_TAX_BRACKETS, ZERO, ONE, CENTI, Int.even_iff, min_def, Option.getD,
    Except.ok.injEq, Prod.mk.injEq, Payment.mk.injEq, Registers.mk.injEq]
  rw [ptRun]
  norm_num [compute_f_s, cifSpec, stepB1, mkPayment, calc_balance, prepay_row2,
    prepay_regs2, roundDp, roundEven, calculate_revenue_tax, find_bracket,
    REVENUE_TAX_BRACKETS, ZERO, ONE, CENTI, Int.even_iff, min_def, Option.getD,
    Except.ok.injEq, Prod.mk.injEq, Payment.mk.injEq, Registers.mk.injEq]

theorem prepay_gpt_eval :
    get_payments_table cifSpec imb_cdi_factor 1000 0 [bullet_e0, prepay_mid, bullet_e1]
      none Capitalisation.Days360 none none GainOutputMode.Current =
      .ok [prepay_row1, prepay_row2] := by
  norm_num [get_payments_table, check_ratios, is_close_to, is_cdi,
    ZERO, ONE, CENTI, List.getLastD, List.headD, List.zip, List.zipWith, Option.getD,
    show (1e-9 : ℚ) = 1/1000000000 from by norm_num,
    show bullet_e0.amortization_frac = 0 from rfl,
    show prepay_mid.amortization_frac = 0 from rfl,
    show bullet_e1.amortization_frac = 1 from rfl,
    show bullet_e1.date = civil 2022 12 27 from rfl,
    show bullet_e0.date = civil 2022 1 1 from rfl]
  rw [if_neg (by decide), prepay_ptRun_eval]
  rfl

/-- Claim C5 is refuted by the code: `preprocess_bullet` turns the insertion
{2022-07-01, 600.00} into a regular `Amortization` with ratio 0 and drops
its value (the `AmortizationBare` arm of the engine match is unreachable -
the schedule type carries no value), so the emitted prepayment row
amortizes 0 and leaves the balance at 1000.00 instead of applying the
val0/val1/val2/val3 split of 600.00; the maturity row still closes to 0
only because the full ratio-1 entry follows.  (Run shown with apy 0, where
the claim would predict a balance of 400.00 after the prepayment.) -/
theorem claim_C5 :
    get_bullet_payments cifSpec imb_cdi_factor 1000 0 (civil 2022 1 1) 12
      [prepay_insertion] none none none Capitalisation.Days360 none
      GainOutputMode.Current = .ok [prepay_row1, prepay_row2] ∧
    prepay_row1.amort = 0 ∧ prepay_row1.bal = 1000 ∧ prepay_row2.bal = 0 := by
  refine ⟨?_, by norm_num [prepay_row1], by norm_num [prepay_row1], by norm_num [prepay_row2]⟩
  unfold get_bullet_payments
  rw [prepay_preprocess_eval]
  exact prepay_gpt_eval

theorem roundDp_zero : roundDp 2 0 = 0 := by
  norm_num [roundDp, roundEven]

theorem stepB1_afrac_current (p f_s f_c : ℚ) (e : Amortization) (regs : Registers) :
    (stepB1 p f_s f_c e regs).afrac_current =
      regs.afrac_current +
        e.amortization_frac * ((ONE - regs.afrac_current) / (ONE - regs.afrac_regular)) := by
  unfold stepB1
  split <;> rfl

theorem stepB1_afrac_regular (p f_s f_c : ℚ) (e : Amortization) (regs : Registers) :
    (stepB1 p f_s f_c e regs).afrac_regular =
      regs.afrac_regular + e.amortization_frac := by
  unfold stepB1
  split <;> rfl

theorem stepB1_amortized_current (p f_s f_c : ℚ) (e : Amortization) (regs : Registers) :
    (stepB1 p f_s f_c e regs).amortized_current =
      e.amortization_frac * ((ONE - regs.afrac_current) / (ONE - regs.afrac_regular)) * p := by
  unfold stepB1
  split <;> rfl

theorem stepB1_amortized_total (p f_s f_c : ℚ) (e : Amortization) (regs : Registers) :
    (stepB1 p f_s f_c e regs).amortized_total =
      (regs.afrac_current +
        e.amortization_frac * ((ONE - regs.afrac_current) / (ONE - regs.afrac_regular))) * p := by
  unfold stepB1
  split <;> rfl

theorem mkPayment_bal (p f_c : ℚ) (ss due : Int) (num : Nat) (e : Amortization)
    (te : Option Bool) (go : GainOutputMode) (regs : Registers) :
    (mkPayment p f_c ss due num e te go regs).bal =
      roundDp 2 (calc_balance p f_c regs.interest_accrued regs.amortized_total
        regs.interest_settled_total) := rfl

theorem adj_one (regs : Registers) (hcur : regs.afrac_current = regs.afrac_regular)
    (hne : regs.afrac_regular ≠ 1) :
    (ONE - regs.afrac_current) / (ONE - regs.afrac_regular) = 1 := by
  rw [hcur]
  apply div_self
  intro h
  apply hne
  have h1 : ONE = (1 : ℚ) := rfl
  rw [h1] at h
  linarith

theorem stepB1_final_bal (p f_s : ℚ) (e : Amortization) (regs : Registers)
    (hcur : regs.afrac_current = regs.afrac_regular)
    (hne : regs.afrac_regular ≠ 1)
    (hsum : regs.afrac_regular + e.amortization_frac = 1)
    (hami : e.amortizes_interest = true)
    (htot : regs.amortized_total = regs.afrac_current * p) :
    calc_balance p ONE (stepB1 p f_s ONE e regs).interest_accrued
      (stepB1 p f_s ONE e regs).amortized_total
      (stepB1 p f_s ONE e regs).interest_settled_total = 0 := by
  have hadj := adj_one regs hcur hne
  unfold stepB1
  rw [hami]
  rw [if_pos rfl]
  dsimp only
  rw [hadj, hcur, htot]
  unfold calc_balance
  have h1 : ONE = (1 : ℚ) := rfl
  rw [h1]
  linear_combination (-(p + regs.interest_accrued - regs.interest_settled_total)) * hsum

/-- Main induction for C1 over the payment loop `ptRun`: starting from
registers with equal current/regular ratio below 1 and consistent amortized
total, for a pair list whose ratio partial sums stay below 1 and total
exactly 1 - (a) if the run emits a row for every pair, the unrounded
amortized amounts sum to the outstanding principal fraction, and (b) if the
final entry settles interest, the last emitted payment has (rounded)
balance 0. -/
theorem ptRun_main (cif : ℚ → ℚ → Bool → ℚ) (cdiF : Int → Int → Int → ℚ × Int)
    (p apy : ℚ) (vir : Option VariableIndex) (cap : Capitalisation)
    (calcd : CalcDate) (sched_start : Int) (te : Option Bool) (go : GainOutputMode) :
    ∀ (pairs : List (Amortization × Amortization)) (num : Nat) (regs : Registers)
      (l : List (Payment × Registers)),
      ptRun cif cdiF p apy vir cap calcd sched_start te go pairs num regs = .ok l →
      (∀ pr ∈ pairs, pr.2.date ≤ calcd.value) →
      regs.afrac_current = regs.afrac_regular →
      regs.amortized_total = regs.afrac_current * p →
      regs.afrac_regular < 1 →
      (∀ k : Nat, k + 1 < pairs.length →
        regs.afrac_regular +
          ((pairs.take (k + 1)).map (fun pr => pr.2.amortization_frac)).sum < 1) →
      regs.afrac_regular + ((pairs.map (fun pr => pr.2.amortization_frac)).sum) = 1 →
      ((l.length = pairs.length →
        (l.map (fun pr => pr.2.amortized_current)).sum = (1 - regs.afrac_current) * p) ∧
       (∀ hne : pairs ≠ [], (pairs.getLast hne).2.amortizes_interest = true →
        ∃ pr, l.getLast? = some pr ∧ pr.1.bal = 0)) := by
  intro pairs
  induction pairs with
  | nil =>
    intro num regs l hok hdates hcur htot hlt hstrict hlast
    simp only [List.map_nil, List.sum_nil, add_zero] at hlast
    exact absurd hlast (by linarith)
  | cons pr rest ih =>
    obtain ⟨ent0, ent1⟩ := pr
    intro num regs l hok hdates hcur htot hlt hstrict hlast
    have hg : ent1.date ≤ calcd.value := hdates (ent0, ent1) (List.mem_cons_self _ _)
    rw [ptRun] at hok
    dsimp only at hok
    split at hok
    · simp at hok
    · rename_i f_s heqf
      rw [if_pos (Or.inr (Or.inl hg))] at hok
      have hne1 : regs.afrac_regular ≠ 1 := ne_of_lt hlt
      have hadj := adj_one regs hcur hne1
      have h2cur : (stepB1 p f_s ONE ent1 regs).afrac_current =
          regs.afrac_regular + ent1.amortization_frac := by
        rw [stepB1_afrac_current, hadj, hcur]
        ring
      have h2reg : (stepB1 p f_s ONE ent1 regs).afrac_regular =
          regs.afrac_regular + ent1.amortization_frac := by
        rw [stepB1_afrac_regular]
      have h2amc : (stepB1 p f_s ONE ent1 regs).amortized_current =
          ent1.amortization_frac * p := by
        rw [stepB1_amortized_current, hadj]
        ring
      have h2amt : (stepB1 p f_s ONE ent1 regs).amortized_total =
          (stepB1 p f_s ONE ent1 regs).afrac_current * p := by
        rw [stepB1_amortized_total, stepB1_afrac_current]
      cases rest with
      | nil =>
        have hsum1 : regs.afrac_regular + ent1.amortization_frac = 1 := by
          simpa using hlast
        have hl : l = [(mkPayment p ONE sched_start (min calcd.value ent1.date) num ent1
            te go (stepB1 p f_s ONE ent1 regs), stepB1 p f_s ONE ent1 regs)] := by
          split at hok
          · exact (Except.ok.inj hok).symm
          · rw [ptRun] at hok
            exact (Except.ok.inj hok).symm
        subst hl
        constructor
        · intro _
          simp only [List.map_cons, List.map_nil, List.sum_cons, List.sum_nil, add_zero, h2amc]
          rw [hcur]
          linear_combination p * hsum1
        · intro hne hami
          refine ⟨_, rfl, ?_⟩
          simp only [List.getLast_singleton] at hami ⊢
          rw [mkPayment_bal,
            stepB1_final_bal p f_s ent1 regs hcur hne1 hsum1 hami htot, roundDp_zero]
      | cons r2 rest2 =>
        have hstrict0 : (stepB1 p f_s ONE ent1 regs).afrac_regular < 1 := by
          have h0 := hstrict 0 (by simp)
          rw [h2reg]
          simpa using h0
        split at hok
        · rename_i hbal0
          have hl := (Except.ok.inj hok).symm
          subst hl
          constructor
          · intro hlen
            simp at hlen
          · intro hne hami
            exact ⟨_, rfl, hbal0⟩
        · rename_i hbalne
          split at hok
          · simp at hok
          · rename_i l' heq2
            have hl := (Except.ok.inj hok).symm
            subst hl
            have ihres := ih (num + 1) (stepB1 p f_s ONE ent1 regs) l' heq2
              (fun q hq => hdates q (List.mem_cons_of_mem _ hq))
              (h2cur.trans h2reg.symm) h2amt hstrict0
              ?_ ?_
            · constructor
              · intro hlen
                have hlen' : l'.length = (r2 :: rest2).length := by simpa using hlen
                have hsum' := ihres.1 hlen'
                simp only [List.map_cons, List.sum_cons, h2amc, hsum', h2cur]
                rw [hcur]
                ring
              · intro hne hami
                have hami' : (((r2 :: rest2).getLast (by simp)).2.amortizes_interest) = true := by
                  rw [← List.getLast_cons (l := r2 :: rest2) (by simp)]
                  exact hami
                obtain ⟨q, hq1, hq2⟩ := ihres.2 (by simp) hami'
                cases l' with
                | nil => simp at hq1
                | cons c t =>
                  exact ⟨q, by rw [List.getLast?_cons_cons]; exact hq1, hq2⟩
            · intro k hk
              have hs := hstrict (k + 1) (by simp only [List.length_cons] at hk ⊢; omega)
              rw [h2reg]
              simp only [List.take_succ_cons, List.map_cons, List.sum_cons] at hs ⊢
              linarith [hs]
            · have : regs.afrac_regular + (ent1.amortization_frac +
                  ((r2 :: rest2).map (fun pr => pr.2.amortization_frac)).sum) = 1 := by
                simpa using hlast
              rw [h2reg]
              linarith [this]

theorem zip_tail_snd (es : List Amortization) :
    (es.zip es.tail).map Prod.snd = es.tail := by
  apply List.map_snd_zip
  cases es with
  | nil => simp
  | cons a t => simp

/-- Claim C1 (amended): for every schedule accepted by `get_payments_table`
with non-decreasing dates, ratios after the origination entry summing to
exactly 1 and reaching 1 only at the final entry, evaluated with the
default calc date: (a) when no intermediate zero-balance stop occurs (the
run emits one row per schedule pair), the sum of the emitted amort fields
before rounding equals the principal exactly, and (b) when the final entry
settles interest, the bal field of the last emitted payment rounds to
0.00.  Stated over `ptRun`, the loop of `get_payments_table`, whose rows
carry the pre-rounding register file. -/
theorem claim_C1 (cif : ℚ → ℚ → Bool → ℚ) (cdiF : Int → Int → Int → ℚ × Int)
    (principal apy : ℚ) (es : List Amortization) (vir : Option VariableIndex)
    (cap : Capitalisation) (te : Option Bool) (go : GainOutputMode)
    (l : List (Payment × Registers))
    (hlen2 : 2 ≤ es.length)
    (hdates : ∀ a ∈ es, a.date ≤ (es.getLastD default).date)
    (hsum : ((es.drop 1).map (fun a => a.amortization_frac)).sum = 1)
    (hstrict : ∀ k : Nat, k + 1 < (es.drop 1).length →
      (((es.drop 1).take (k + 1)).map (fun a => a.amortization_frac)).sum < 1)
    (hok : ptRun cif cdiF principal apy vir cap
      { value := (es.getLastD default).date, runaway := false }
      (es.headD default).date te go (es.zip es.tail) 0 Registers.new = .ok l) :
    ((l.length = es.length - 1 →
      (l.map (fun pr => pr.2.amortized_current)).sum = principal) ∧
     ((es.getLastD default).amortizes_interest = true →
      ∃ pr, l.getLast? = some pr ∧ pr.1.bal = 0)) := by
  have htail : es.tail.length = es.length - 1 := by
    cases es <;> simp
  have hplen : (es.zip es.tail).length = es.length - 1 := by
    rw [List.length_zip, htail]
    omega
  have hmapfrac : (es.zip es.tail).map (fun pr => pr.2.amortization_frac) =
      (es.drop 1).map (fun a => a.amortization_frac) := by
    rw [List.drop_one]
    conv_rhs => rw [← zip_tail_snd es]
    rw [List.map_map]
    exact List.map_congr_left (fun q _ => rfl)
  have hmain := ptRun_main cif cdiF principal apy vir cap
    { value := (es.getLastD default).date, runaway := false }
    (es.headD default).date te go (es.zip es.tail) 0 Registers.new l hok
    ?_ rfl (by norm_num [Registers.new, ZERO]) (by norm_num [Registers.new, ZERO]) ?_ ?_
  · constructor
    · intro hlen
      have := hmain.1 (by rw [hplen]; exact hlen)
      rw [show (Registers.new).afrac_current = 0 from rfl] at this
      simpa using this
    · intro hami
      have hne : es.zip es.tail ≠ [] := by
        have : 0 < (es.zip es.tail).length := by omega
        exact List.ne_nil_of_length_pos this
      refine hmain.2 hne ?_
      -- last pair's second component is the last schedule entry
      have hlast2 : ((es.zip es.tail).getLast hne).2 = es.getLastD default := by
        rw [List.getLast_eq_getElem]
        rw [List.getElem_zip]
        rw [List.getElem_tail]
        rw [List.getLastD_eq_getLast?]
        rw [List.getLast?_eq_getElem?]
        rw [List.getElem?_eq_getElem (by omega)]
        simp only [Option.getD_some]
        congr 1
        omega
      rw [hlast2]
      exact hami
  · intro q hq
    have h2 : q.2 ∈ es.tail := by
      rw [← zip_tail_snd es]
      exact List.mem_map_of_mem Prod.snd hq
    have h3 : q.2 ∈ es := List.mem_of_mem_tail h2
    exact hdates q.2 h3
  · intro k hk
    have hstep := hstrict k (by rw [hplen] at hk; rw [List.drop_one, htail]; omega)
    rw [show (Registers.new).afrac_regular = (0 : ℚ) from rfl, zero_add,
      List.map_take, hmapfrac, ← List.map_take]
    exact hstep
  · rw [show (Registers.new).afrac_regular = (0 : ℚ) from rfl, zero_add, hmapfrac]
    exact hsum

/-- Witness for C1 on the concrete bullet schedule. -/
theorem claim_C1_witness :
    (([(bullet_row, bullet_regs)] : List (Payment × Registers)).map
      (fun pr => pr.2.amortized_current)).sum = 1000 ∧
    (∃ pr, ([(bullet_row, bullet_regs)] : List (Payment × Registers)).getLast? = some pr ∧
      pr.1.bal = 0) := by
  have h := claim_C1 cifSpec imb_cdi_factor 1000 (1/10) [bullet_e0, bullet_e1] none
    Capitalisation.Days360 none GainOutputMode.Current [(bullet_row, bullet_regs)]
    (by norm_num) (by decide) (by norm_num [bullet_e1, ONE])
    (by intro k hk; simp at hk) bullet_ptRun_eval
  exact ⟨h.1 (by norm_num), h.2 (by rfl)⟩

theorem ratio_overflow_iff (a : ℚ) :
    (a > ONE ∧ ¬ (is_close_to a ONE 1e-9 = true)) ↔ a > 1 + 1e-9 := by
  simp only [is_close_to, decide_eq_true_eq, not_le, ONE]
  constructor
  · rintro ⟨h1, h2⟩
    rw [abs_of_pos (by linarith)] at h2
    linarith
  · intro h
    have hz : (0 : ℚ) < 1e-9 := by norm_num
    have h1 : a > 1 := by linarith
    refine ⟨h1, ?_⟩
    rw [abs_of_pos (by linarith)]
    linarith

theorem check_ratios_ok_sum : ∀ (l : List Amortization) (a r : ℚ),
    check_ratios l a = .ok r → r = a + (l.map (fun x => x.amortization_frac)).sum := by
  intro l
  induction l with
  | nil =>
    intro a r h
    rw [check_ratios] at h
    have := Except.ok.inj h
    simp [← this]
  | cons x xs ih =>
    intro a r h
    rw [check_ratios] at h
    split at h
    · simp at h
    · have := ih (a + x.amortization_frac) r h
      simp only [List.map_cons, List.sum_cons]
      rw [this]
      ring

theorem check_ratios_err_of_overflow : ∀ (l : List Amortization) (a : ℚ),
    (∃ k : Nat, a + ((l.take k).map (fun x => x.amortization_frac)).sum > 1 + 1e-9) →
    a ≤ 1 + 1e-9 →
    ∃ e, check_ratios l a = .error e := by
  intro l
  induction l with
  | nil =>
    intro a hk ha
    obtain ⟨k, hk⟩ := hk
    simp only [List.take_nil, List.map_nil, List.sum_nil, add_zero] at hk
    linarith
  | cons x xs ih =>
    intro a hk ha
    rw [check_ratios]
    by_cases hover : a + x.amortization_frac > 1 + 1e-9
    · rw [if_pos ((ratio_overflow_iff (a + x.amortization_frac)).mpr hover)]
      exact ⟨_, rfl⟩
    · rw [if_neg (fun hc => hover ((ratio_overflow_iff (a + x.amortization_frac)).mp hc))]
      apply ih
      · obtain ⟨k, hksum⟩ := hk
        cases k with
        | zero =>
          simp only [List.take_zero, List.map_nil, List.sum_nil, add_zero] at hksum
          linarith
        | succ k2 =>
          refine ⟨k2, ?_⟩
          simp only [List.take_succ_cons, List.map_cons, List.sum_cons] at hksum
          linarith [hksum]
      · linarith

/-- Claim C4: `get_payments_table` input validation - principal 0 returns an
empty table without error; 0 < principal < 0.01 errors; fewer than 2
schedule entries errors (for nonzero principal); no variable index with 252
capitalisation errors; a CDI variable index with capitalisation other than
252 errors; a cumulative ratio exceeding 1 beyond 1e-9 errors; a total
ratio not within 1e-9 of 1 errors. -/
theorem claim_C4 (cif : ℚ → ℚ → Bool → ℚ) (cdiF : Int → Int → Int → ℚ × Int)
    (apy : ℚ) (vir : Option VariableIndex) (capitalisation : Capitalisation)
    (calc_date : Option CalcDate) (tax_exempt : Option Bool)
    (gain_output : GainOutputMode) :
    (∀ ams : List Amortization,
      get_payments_table cif cdiF 0 apy ams vir capitalisation calc_date tax_exempt
        gain_output = .ok []) ∧
    (∀ (p : ℚ) (ams : List Amortization), 0 < p → p < 1/100 →
      ∃ e, get_payments_table cif cdiF p apy ams vir capitalisation calc_date tax_exempt
        gain_output = .error e) ∧
    (∀ (p : ℚ) (ams : List Amortization), p ≠ 0 → ams.length < 2 →
      ∃ e, get_payments_table cif cdiF p apy ams vir capitalisation calc_date tax_exempt
        gain_output = .error e) ∧
    (∀ (p : ℚ) (ams : List Amortization), p ≠ 0 → vir = none →
      capitalisation = Capitalisation.Days252 →
      ∃ e, get_payments_table cif cdiF p apy ams vir capitalisation calc_date tax_exempt
        gain_output = .error e) ∧
    (∀ (p : ℚ) (ams : List Amortization) (v : VariableIndex), p ≠ 0 → vir = some v →
      v.code = VrIndex.CDI → capitalisation ≠ Capitalisation.Days252 →
      ∃ e, get_payments_table cif cdiF p apy ams vir capitalisation calc_date tax_exempt
        gain_output = .error e) ∧
    (∀ (p : ℚ) (ams : List Amortization), p ≠ 0 →
      (∃ k : Nat, ((ams.take k).map (fun x => x.amortization_frac)).sum > 1 + 1e-9) →
      ∃ e, get_payments_table cif cdiF p apy ams vir capitalisation calc_date tax_exempt
        gain_output = .error e) ∧
    (∀ (p : ℚ) (ams : List Amortization), p ≠ 0 →
      ¬ (|(ams.map (fun x => x.amortization_frac)).sum - 1| ≤ 1e-9) →
      ∃ e, get_payments_table cif cdiF p apy ams vir capitalisation calc_date tax_exempt
        gain_output = .error e) := by
  have hZ : ZERO = (0 : ℚ) := rfl
  refine ⟨?_, ?_, ?_, ?_, ?_, ?_, ?_⟩
  · intro ams
    rw [get_payments_table, if_pos hZ.symm]
  · intro p ams hp0 hplt
    rw [get_payments_table, if_neg (by rw [hZ]; linarith),
      if_pos (by rw [show CENTI = (1/100 : ℚ) from by norm_num [CENTI]]; exact hplt)]
    exact ⟨_, rfl⟩
  · intro p ams hp0 hlen
    rw [get_payments_table, if_neg (by rw [hZ]; exact hp0)]
    by_cases hc : p < CENTI
    · rw [if_pos hc]; exact ⟨_, rfl⟩
    · rw [if_neg hc, if_pos hlen]; exact ⟨_, rfl⟩
  · intro p ams hp0 hv hcap
    rw [get_payments_table, if_neg (by rw [hZ]; exact hp0)]
    by_cases hc : p < CENTI
    · rw [if_pos hc]; exact ⟨_, rfl⟩
    · rw [if_neg hc]
      by_cases hl : ams.length < 2
      · rw [if_pos hl]; exact ⟨_, rfl⟩
      · rw [if_neg hl, if_pos ⟨hv, hcap⟩]; exact ⟨_, rfl⟩
  · intro p ams v hp0 hv hcode hcap
    rw [get_payments_table, if_neg (by rw [hZ]; exact hp0)]
    by_cases hc : p < CENTI
    · rw [if_pos hc]; exact ⟨_, rfl⟩
    · rw [if_neg hc]
      by_cases hl : ams.length < 2
      · rw [if_pos hl]; exact ⟨_, rfl⟩
      · rw [if_neg hl, if_neg (by rintro ⟨h1, _⟩; rw [hv] at h1; exact Option.noConfusion h1),
          if_pos ⟨by rw [hv, is_cdi]; simp [hcode], hcap⟩]
        exact ⟨_, rfl⟩
  · intro p ams hp0 hover
    rw [get_payments_table, if_neg (by rw [hZ]; exact hp0)]
    by_cases hc : p < CENTI
    · rw [if_pos hc]; exact ⟨_, rfl⟩
    · rw [if_neg hc]
      by_cases hl : ams.length < 2
      · rw [if_pos hl]; exact ⟨_, rfl⟩
      · rw [if_neg hl]
        by_cases h4 : vir = none ∧ capitalisation = Capitalisation.Days252
        · rw [if_pos h4]; exact ⟨_, rfl⟩
        · rw [if_neg h4]
          by_cases h5 : is_cdi vir = true ∧ capitalisation ≠ Capitalisation.Days252
          · rw [if_pos h5]; exact ⟨_, rfl⟩
          · rw [if_neg h5]
            obtain ⟨e, he⟩ := check_ratios_err_of_overflow ams 0
              (by obtain ⟨k, hk⟩ := hover; exact ⟨k, by rw [zero_add]; exact hk⟩)
              (by norm_num)
            rw [hZ, he]
            exact ⟨_, rfl⟩
  · intro p ams hp0 hfar
    rw [get_payments_table, if_neg (by rw [hZ]; exact hp0)]
    by_cases hc : p < CENTI
    · rw [if_pos hc]; exact ⟨_, rfl⟩
    · rw [if_neg hc]
      by_cases hl : ams.length < 2
      · rw [if_pos hl]; exact ⟨_, rfl⟩
      · rw [if_neg hl]
        by_cases h4 : vir = none ∧ capitalisation = Capitalisation.Days252
        · rw [if_pos h4]; exact ⟨_, rfl⟩
        · rw [if_neg h4]
          by_cases h5 : is_cdi vir = true ∧ capitalisation ≠ Capitalisation.Days252
          · rw [if_pos h5]; exact ⟨_, rfl⟩
          · rw [if_neg h5, hZ]
            cases hcr : check_ratios ams 0 with
            | error e => exact ⟨_, rfl⟩
            | ok aux =>
              have haux := check_ratios_ok_sum ams 0 aux hcr
              rw [zero_add] at haux
              dsimp only
              rw [if_pos ?_]
              · exact ⟨_, rfl⟩
              · simp only [is_close_to, decide_eq_true_eq, ONE]
                rw [haux]
                exact hfar


/-- Witness for C4: one concrete instance per validation rule. -/
theorem claim_C4_witness :
    get_payments_table cifSpec imb_cdi_factor 0 (1/10) [] none Capitalisation.Days360
      none none GainOutputMode.Current = .ok [] ∧
    (∃ e, get_payments_table cifSpec imb_cdi_factor (1/200) (1/10) [] none
      Capitalisation.Days360 none none GainOutputMode.Current = .error e) ∧
    (∃ e, get_payments_table cifSpec imb_cdi_factor 5 (1/10) [] none
      Capitalisation.Days360 none none GainOutputMode.Current = .error e) ∧
    (∃ e, get_payments_table cifSpec imb_cdi_factor 5 (1/10) [] none
      Capitalisation.Days252 none none GainOutputMode.Current = .error e) ∧
    (∃ e, get_payments_table cifSpec imb_cdi_factor 5 (1/10) []
      (some { code := VrIndex.CDI, percentage := 100 }) Capitalisation.Days360
      none none GainOutputMode.Current = .error e) ∧
    (∃ e, get_payments_table cifSpec imb_cdi_factor 5 (1/10) [over_entry] none
      Capitalisation.Days360 none none GainOutputMode.Current = .error e) ∧
    (∃ e, get_payments_table cifSpec imb_cdi_factor 5 (1/10) [] none
      Capitalisation.Days360 none none GainOutputMode.Current = .error e) := by
  refine ⟨(claim_C4 cifSpec imb_cdi_factor (1/10) none Capitalisation.Days360 none none
      GainOutputMode.Current).1 [],
    (claim_C4 cifSpec imb_cdi_factor (1/10) none Capitalisation.Days360 none none
      GainOutputMode.Current).2.1 (1/200) [] (by norm_num) (by norm_num),
    (claim_C4 cifSpec imb_cdi_factor (1/10) none Capitalisation.Days360 none none
      GainOutputMode.Current).2.2.1 5 [] (by norm_num) (by norm_num),
    (claim_C4 cifSpec imb_cdi_factor (1/10) none Capitalisation.Days252 none none
      GainOutputMode.Current).2.2.2.1 5 [] (by norm_num) rfl rfl,
    (claim_C4 cifSpec imb_cdi_factor (1/10)
      (some { code := VrIndex.CDI, percentage := 100 }) Capitalisation.Days360 none none
      GainOutputMode.Current).2.2.2.2.1 5 [] _ (by norm_num) rfl rfl (by decide),
    (claim_C4 cifSpec imb_cdi_factor (1/10) none Capitalisation.Days360 none none
      GainOutputMode.Current).2.2.2.2.2.1 5 [over_entry] (by norm_num)
      ⟨1, by norm_num [over_entry]⟩,
    (claim_C4 cifSpec imb_cdi_factor (1/10) none Capitalisation.Days360 none none
      GainOutputMode.Current).2.2.2.2.2.2 5 [] (by norm_num) (by norm_num)⟩



theorem dayLoop_none (cif : ℚ → ℚ → Bool → ℚ) (p apy : ℚ) (a0 a1 : Amortization)
    (hp : roundDp 2 p ≠ 0) :
    ∀ (ds : List Int) (s : DState), s.rest = [] → s.next.date ∈ ds →
      s.regs.interest_accrued = 0 → s.regs.amortized_total = 0 →
      s.regs.interest_settled_total = 0 →
      dayLoop cif p apy none Capitalisation.Days360 a0 a1 ds s = none := by
  intro ds
  induction ds with
  | nil =>
    intro s _ hmem
    simp at hmem
  | cons d ds' ih =>
    intro s hrest hmem hacc hamz hset
    rw [dayLoop]
    dsimp only [daily_factors]
    unfold processEvents
    rw [hrest]
    by_cases hd : d = s.next.date
    · rw [processEventsAux, if_pos hd]
    · rw [processEventsAux, if_neg hd]
      dsimp only
      rw [hacc, hamz, hset]
      rw [if_neg (by rw [show calc_balance p ONE 0 0 0 = p from by unfold calc_balance ONE; ring]; exact hp)]
      rw [ih ⟨s.regs, s.period, s.count + 1, s.cur, s.next, [], s.idxs⟩ rfl
        (by cases hmem with
          | head => exact absurd rfl hd
          | tail _ h => exact h) hacc hamz hset]

/-- Claim C8 is refuted by the code: on a perfectly valid run (principal
1000, apy 0.10, schedule 2022-01-01 -> 2022-01-31, capitalisation 360)
`get_daily_returns` never returns at all (`none`): the tracker "generators"
are dead empty iterators so no interest ever accrues and the balance never
reaches 0, the zero-balance check precedes the row emission, and on the
last scheduled day the event loop keeps `next_amortization` fixed once the
schedule iterator is exhausted and spins forever. -/
theorem claim_C8 :
    get_daily_returns cifSpec imb_cdi_norm 1000 (1/10) [daily_e0, daily_e1] none
      Capitalisation.Days360 = none := by
  unfold get_daily_returns
  rw [if_neg (by norm_num [ZERO]), if_neg (by norm_num [CENTI]), if_neg (by norm_num),
    if_neg (by simp), if_neg (by simp [is_cdi])]
  rw [show check_ratios [daily_e0, daily_e1] ZERO = .ok 1 from by
    norm_num [check_ratios, is_close_to, ZERO, ONE,
      show daily_e0.amortization_frac = 0 from rfl,
      show daily_e1.amortization_frac = 1 from rfl]]
  dsimp only
  rw [if_neg (by norm_num [is_close_to, ONE])]
  refine dayLoop_none cifSpec 1000 (1/10) daily_e0 daily_e1
    (by norm_num [roundDp, roundEven]) _ _ rfl ?_ rfl rfl rfl
  show daily_e1.date ∈ date_range daily_e0.date daily_e1.date
  rw [date_range_eq_closed _ _ (by decide)]
  exact (mem_closed_days _ _ _ (by decide)).mpr (by decide)

/-- Witness for C7 on the concrete bullet run: the zero-balance row is the
last (and only) row. -/
theorem claim_C7_witness : (0 : Nat) = ([bullet_row].length) - 1 := by
  refine claim_C7 cifSpec imb_cdi_factor 1000 (1/10) [bullet_e0, bullet_e1] none
    Capitalisation.Days360 none none GainOutputMode.Current [bullet_row] bullet_gpt_eval
    0 (by norm_num) ?_
  show bullet_row.bal = ZERO
  norm_num [bullet_row, ZERO]
